import Mathlib

/-!
Verification development for the mp4-parser repository.

The repository contains two decoders sharing one byte cursor
(`src/reader.rs`):

* a legacy recursive parser (`src/parser.rs`, driven by `src/main.rs`) that
  logs while consuming bytes, and
* a structured decoder (`src/boxes.rs`, `src/quicktime.rs`) driven by
  `src/bin/parse.rs` and `src/bin/info.rs`.

Both are embedded below.  Bytes are modelled as natural numbers (< 256 by
construction of well-formed buffers), machine integers as `Nat` with explicit
`% 2 ^ 32` where Rust performs an `as u32` cast, Rust panics
(`unwrap` / `assert!` / `todo!` and debug-mode arithmetic overflow) as
`Except.error`, and Rust `f32` values as exact rationals obtained through an
explicit round-to-nearest-even conversion.  Rust `String` values are modelled
as lists of Unicode scalar values (`List Nat`).
-/

namespace Mp4

/-- The byte cursor of `src/reader.rs`: an immutable buffer and a position. -/
structure Reader where
  buf : List Nat
  pos : Nat
deriving Repr, DecidableEq

namespace Reader

def new (buf : List Nat) : Reader := ⟨buf, 0⟩

/-- `Reader::position`. -/
def position (r : Reader) : Nat := r.pos

/-- Big-endian value of a byte list (`uN::from_be_bytes`). -/
def be (bs : List Nat) : Nat := bs.foldl (fun a b => a * 256 + b) 0

/-- `cursor.read_exact(&mut buf).unwrap()`: yields exactly `n` bytes or
fails (the Rust code panics on a truncated read). -/
def readBytes (r : Reader) (n : Nat) : Except String (List Nat × Reader) :=
  if r.pos + n ≤ r.buf.length then
    Except.ok ((r.buf.drop r.pos).take n, ⟨r.buf, r.pos + n⟩)
  else
    Except.error "failed to fill whole buffer"

/-- `Reader::read_u8`. -/
def read_u8 (r : Reader) : Except String (Nat × Reader) := do
  let (bs, r1) ← r.readBytes 1
  pure (be bs, r1)

/-- `Reader::read_u16`. -/
def read_u16 (r : Reader) : Except String (Nat × Reader) := do
  let (bs, r1) ← r.readBytes 2
  pure (be bs, r1)

/-- `Reader::read_i16` (the parsers only consume these values, so the
two-complement reinterpretation is immaterial; we keep the raw value). -/
def read_i16 (r : Reader) : Except String (Nat × Reader) := do
  let (bs, r1) ← r.readBytes 2
  pure (be bs, r1)

/-- `Reader::read_u32`. -/
def read_u32 (r : Reader) : Except String (Nat × Reader) := do
  let (bs, r1) ← r.readBytes 4
  pure (be bs, r1)

/-- `Reader::read_i32` (raw value, see `read_i16`). -/
def read_i32 (r : Reader) : Except String (Nat × Reader) := do
  let (bs, r1) ← r.readBytes 4
  pure (be bs, r1)

/-- `Reader::read_u64`. -/
def read_u64 (r : Reader) : Except String (Nat × Reader) := do
  let (bs, r1) ← r.readBytes 8
  pure (be bs, r1)

/-- `Reader::skip_bytes`: bounds-checked skip.  On failure the cursor is not
moved and a descriptive error is produced (mirrors the `format!` string of
`src/reader.rs`). -/
def skip_bytes (r : Reader) (n_bytes : Nat) : Except String Unit × Reader :=
  let pos := r.pos
  let target := pos + n_bytes
  let file_len := r.buf.length
  if target > file_len then
    (Except.error ("Seeking " ++ toString n_bytes ++ " from " ++ toString pos ++
      " would land on " ++ toString target ++ ", but the file is only " ++
      toString file_len ++ " bytes long"), r)
  else
    (Except.ok (), ⟨r.buf, target⟩)

/-- `reader.skip_bytes(n)` used in a context that propagates the error
(`.unwrap()` / `?`): the failure aborts the parse. -/
def skipE (r : Reader) (n_bytes : Nat) : Except String Reader :=
  match r.skip_bytes n_bytes with
  | (Except.ok _, r1) => Except.ok r1
  | (Except.error e, _) => Except.error e

end Reader

/-- Rust debug-mode unsigned subtraction: underflow panics
("attempt to subtract with overflow"). -/
def checkedSub (a b : Nat) : Except String Nat :=
  if b ≤ a then Except.ok (a - b) else Except.error "attempt to subtract with overflow"

/-- Rust `as u32` cast: truncation modulo `2 ^ 32`. -/
def u32cast (n : Nat) : Nat := n % 4294967296

/-- Rust debug-mode `u32` multiplication: overflow panics. -/
def checkedMulU32 (a b : Nat) : Except String Nat :=
  if a * b < 4294967296 then Except.ok (a * b) else Except.error "attempt to multiply with overflow"

/-- `String::from_utf8` on a byte list: the list of decoded Unicode scalar
values, or `none` for invalid UTF-8 (rejecting overlong forms, surrogates and
out-of-range values, exactly as Rust does). -/
def utf8Decode : List Nat → Option (List Nat)
  | [] => some []
  | b0 :: rest =>
    if b0 < 0x80 then
      (utf8Decode rest).map (fun cps => b0 :: cps)
    else if b0 < 0xC2 then
      none
    else if b0 < 0xE0 then
      match rest with
      | b1 :: rest2 =>
        if 0x80 ≤ b1 ∧ b1 < 0xC0 then
          (utf8Decode rest2).map (fun cps => ((b0 - 0xC0) * 0x40 + (b1 - 0x80)) :: cps)
        else none
      | [] => none
    else if b0 < 0xF0 then
      match rest with
      | b1 :: b2 :: rest3 =>
        if (0x80 ≤ b1 ∧ b1 < 0xC0) ∧ (0x80 ≤ b2 ∧ b2 < 0xC0) then
          let cp := (b0 - 0xE0) * 0x1000 + (b1 - 0x80) * 0x40 + (b2 - 0x80)
          if cp < 0x800 ∨ (0xD800 ≤ cp ∧ cp < 0xE000) then none
          else (utf8Decode rest3).map (fun cps => cp :: cps)
        else none
      | _ => none
    else if b0 < 0xF5 then
      match rest with
      | b1 :: b2 :: b3 :: rest4 =>
        if (0x80 ≤ b1 ∧ b1 < 0xC0) ∧ (0x80 ≤ b2 ∧ b2 < 0xC0) ∧ (0x80 ≤ b3 ∧ b3 < 0xC0) then
          let cp := (b0 - 0xF0) * 0x40000 + (b1 - 0x80) * 0x1000 + (b2 - 0x80) * 0x40 + (b3 - 0x80)
          if cp < 0x10000 ∨ 0x110000 ≤ cp then none
          else (utf8Decode rest4).map (fun cps => cp :: cps)
        else none
      | _ => none
    else none

/-- Render a list of Unicode scalar values as a Lean string (used only to
build error messages, mirroring Rust format strings). -/
def cpsToString (cps : List Nat) : String :=
  String.mk (cps.map (fun c => Char.ofNat c))

/-- Equality of parse results is decidable componentwise. -/
instance {ε α : Type} [DecidableEq ε] [DecidableEq α] : DecidableEq (Except ε α) := fun a b =>
  match a, b with
  | Except.error x, Except.error y =>
    if h : x = y then Decidable.isTrue (by subst h; rfl)
    else Decidable.isFalse (fun hc => h (by injection hc))
  | Except.error _, Except.ok _ => Decidable.isFalse (fun hc => Except.noConfusion hc)
  | Except.ok _, Except.error _ => Decidable.isFalse (fun hc => Except.noConfusion hc)
  | Except.ok x, Except.ok y =>
    if h : x = y then Decidable.isTrue (by subst h; rfl)
    else Decidable.isFalse (fun hc => h (by injection hc))

namespace Reader

/-- `Reader::read_string`: `String::from_utf8(buf).unwrap()` — reads exactly
`len` bytes and fails if they are not valid UTF-8. -/
def read_string (r : Reader) (len : Nat) : Except String (List Nat × Reader) := do
  let (bs, r1) ← r.readBytes len
  match utf8Decode bs with
  | some cps => pure (cps, r1)
  | none => Except.error "invalid utf-8 sequence"

end Reader

/-- The exact value of `n as f32` for a `u32` value `n`: round to nearest,
ties to even, 24-bit significand.  Every `u32` rounds to an integer, so the
result is a natural number. -/
def f32ofNat (n : Nat) : Nat :=
  if n < 2 ^ 24 then n
  else
    let k := n.log2 - 23
    let q := n / 2 ^ k
    let m := n % 2 ^ k
    if 2 * m > 2 ^ k ∨ (2 * m = 2 ^ k ∧ q % 2 = 1) then (q + 1) * 2 ^ k else q * 2 ^ k

namespace Reader

/-- `Reader::read_fixed_point_16_16`: `n as f32 / 65536.0`.  The conversion
rounds to a 24-bit significand; the subsequent division by `2 ^ 16` only
shifts the exponent, hence is exact and the result is the rational
`f32ofNat n / 65536`. -/
def read_fixed_point_16_16 (r : Reader) : Except String (ℚ × Reader) := do
  let (bs, r1) ← r.readBytes 4
  pure (((f32ofNat (be bs) : ℚ) / 65536), r1)

/-- `Reader::read_fixed_point_8_8`: `n as f32 / 256.0` for a `u16` value `n`
(the conversion of a value below `2 ^ 24` is exact, as is the division). -/
def read_fixed_point_8_8 (r : Reader) : Except String (ℚ × Reader) := do
  let (bs, r1) ← r.readBytes 2
  pure (((f32ofNat (be bs) : ℚ) / 256), r1)

end Reader

/-! ### Four-character type tags

Decoded type tags are lists of Unicode scalar values.  All known tags are
ASCII except the QuickTime encoder tag, whose first byte is the raw copyright
glyph `0xA9`. -/

def ftypTag : List Nat := [102, 116, 121, 112]
def freeTag : List Nat := [102, 114, 101, 101]
def mdatTag : List Nat := [109, 100, 97, 116]
def moovTag : List Nat := [109, 111, 111, 118]
def mvhdTag : List Nat := [109, 118, 104, 100]
def trakTag : List Nat := [116, 114, 97, 107]
def tkhdTag : List Nat := [116, 107, 104, 100]
def edtsTag : List Nat := [101, 100, 116, 115]
def elstTag : List Nat := [101, 108, 115, 116]
def mdiaTag : List Nat := [109, 100, 105, 97]
def mdhdTag : List Nat := [109, 100, 104, 100]
def hdlrTag : List Nat := [104, 100, 108, 114]
def minfTag : List Nat := [109, 105, 110, 102]
def vmhdTag : List Nat := [118, 109, 104, 100]
def smhdTag : List Nat := [115, 109, 104, 100]
def dinfTag : List Nat := [100, 105, 110, 102]
def drefTag : List Nat := [100, 114, 101, 102]
/-- The tag of the self-contained URL entry, `"url "` with a trailing space. -/
def urlTag : List Nat := [117, 114, 108, 32]
def stblTag : List Nat := [115, 116, 98, 108]
def stsdTag : List Nat := [115, 116, 115, 100]
def avc1Tag : List Nat := [97, 118, 99, 49]
def mp4aTag : List Nat := [109, 112, 52, 97]
def sttsTag : List Nat := [115, 116, 116, 115]
def stssTag : List Nat := [115, 116, 115, 115]
def cttsTag : List Nat := [99, 116, 116, 115]
def stscTag : List Nat := [115, 116, 115, 99]
def stszTag : List Nat := [115, 116, 115, 122]
def stcoTag : List Nat := [115, 116, 99, 111]
def sgpdTag : List Nat := [115, 103, 112, 100]
def sbgpTag : List Nat := [115, 98, 103, 112]
def sdtpTag : List Nat := [115, 100, 116, 112]
def udtaTag : List Nat := [117, 100, 116, 97]
def metaTag : List Nat := [109, 101, 116, 97]
def ilstTag : List Nat := [105, 108, 115, 116]
def mvexTag : List Nat := [109, 118, 101, 120]
def trexTag : List Nat := [116, 114, 101, 120]
def moofTag : List Nat := [109, 111, 111, 102]
def mfhdTag : List Nat := [109, 102, 104, 100]
def trafTag : List Nat := [116, 114, 97, 102]
def mfraTag : List Nat := [109, 102, 114, 97]
/-- The QuickTime encoder tag: the copyright glyph U+00A9 followed by
`too`.  In a file the glyph is the single raw byte `0xA9`. -/
def tooTag : List Nat := [169, 116, 111, 111]

/-- The tags recognized by the match of `parse_box` in src/parser.rs
(everything else falls to the `handle_unknown` arm there). -/
def legacyKnownTags : List (List Nat) :=
  [ftypTag, freeTag, mdatTag, moovTag, mvhdTag, trakTag, tkhdTag, edtsTag,
   elstTag, mdiaTag, mdhdTag, hdlrTag, minfTag, vmhdTag, smhdTag, dinfTag,
   drefTag, urlTag, stblTag, stsdTag, avc1Tag, mp4aTag, sttsTag, stssTag,
   cttsTag, stscTag, stszTag, stcoTag, sgpdTag, sbgpTag, sdtpTag, udtaTag,
   metaTag, ilstTag]

/-- The tags recognized by `Mp4Box::parse_contents` in src/boxes.rs
(everything else yields `None` there). -/
def newKnownTags : List (List Nat) :=
  [ftypTag, freeTag, mdatTag, moovTag, mvhdTag, trakTag, tkhdTag, edtsTag,
   elstTag, mdiaTag, mdhdTag, hdlrTag, minfTag, vmhdTag, smhdTag, dinfTag,
   drefTag, stblTag, stsdTag, sttsTag, stssTag, cttsTag, stscTag, stszTag,
   stcoTag, sgpdTag, sbgpTag, sdtpTag, mvexTag, trexTag, moofTag, mfhdTag,
   trafTag, mfraTag, udtaTag, metaTag, ilstTag]

/-- The tag decoding of `BoxHeader::parse` (src/boxes.rs): try
`String::from_utf8`; on failure widen each of the 4 raw bytes to a `u16` and
decode with `String::from_utf16`.  Each widened unit is below `0x100`, never a
surrogate, so the fallback yields exactly one scalar value per raw byte. -/
def tagDecode (bs : List Nat) : List Nat :=
  match utf8Decode bs with
  | some cps => cps
  | none => bs

/-- `as_timestamp` converts a count of seconds since 1904-01-01T00:00:00Z
into a `chrono::NaiveDateTime`.  The calendar value is determined by the
count; we model the timestamp by the count itself. -/
def as_timestamp (epoch_secs : Nat) : Nat := epoch_secs

/-- The packed-language decoding of `MediaHeaderBox::parse`
(src/boxes.rs lines 454-459, identical in src/parser.rs): each character is
stored as 5-bit ascii minus `0x60`. -/
def langDecode (b0 b1 : Nat) : List Nat :=
  let c1 := ((b0 &&& 0x7C) >>> 2) + 0x60
  let c2 := ((b0 &&& 0x03) <<< 3) + ((b1 &&& 0xE0) >>> 5) + 0x60
  let c3 := (b1 &&& 0x1F) + 0x60
  [c1, c2, c3]

/-! ### Box header decoders (src/boxes.rs) -/

/-- `BoxHeader` (abstract box framing). -/
structure BoxHeader where
  start_offset : Nat
  box_size : Nat
  box_type : List Nat
  inner_size : Nat
deriving Repr, DecidableEq

/-- `BoxHeader::parse`: 32-bit size, 4-byte tag (with non-UTF-8 fallback),
optional 64-bit largesize when the size field is 1; size 0 hits a `todo!`;
sizes below 8 hit the `assert!`.  Mirrors src/boxes.rs lines 1174-1211.
(The `read_string_inexact` diagnostic dump printed before the size-0 `todo!`
has no effect on the outcome and is not modelled.) -/
def BoxHeader.parse (r : Reader) : Except String (BoxHeader × Reader) := do
  let start_offset := r.position
  let (size0, r1) ← r.read_u32
  let (tagBytes, r2) ← r1.readBytes 4
  let box_type := tagDecode tagBytes
  let (size, r3) ←
    if size0 = 1 then
      r2.read_u64
    else if size0 = 0 then
      Except.error ("not yet implemented: Handle box with size=0 (box '" ++
        cpsToString box_type ++ "' extends to EOF)")
    else
      pure (size0, r2)
  if size < 8 then
    Except.error ("Box " ++ cpsToString box_type ++ " (at " ++ toString start_offset ++
      ") has invalid size: " ++ toString size)
  else
    pure (⟨start_offset, size, box_type, size - 8⟩, r3)

/-- `FullBoxHeader` (version byte + 3 flag bytes). -/
structure FullBoxHeader where
  version : Nat
  flags : List Nat
deriving Repr, DecidableEq

/-- `FullBoxHeader::parse`. -/
def FullBoxHeader.parse (r : Reader) : Except String (FullBoxHeader × Reader) := do
  let (version, r1) ← r.read_u8
  let (flags, r2) ← r1.readBytes 3
  pure (⟨version, flags⟩, r2)

/-! ### Box payload parsers (src/boxes.rs) -/

/-- A counted loop of `read_string(4)` calls (the compatible-brands loop of
`FileTypeBox::parse`). -/
def readStrings4 : Nat → Reader → Except String (List (List Nat) × Reader)
  | 0, r => Except.ok ([], r)
  | n + 1, r => do
    let (s, r1) ← r.read_string 4
    let (ss, r2) ← readStrings4 n r1
    pure (s :: ss, r2)

/-- A counted loop of `read_u32` calls (matrix / predefined words). -/
def readU32s : Nat → Reader → Except String (List Nat × Reader)
  | 0, r => Except.ok ([], r)
  | n + 1, r => do
    let (x, r1) ← r.read_u32
    let (xs, r2) ← readU32s n r1
    pure (x :: xs, r2)

/-- `ftyp` -/
structure FileTypeBox where
  major_brand : List Nat
  minor_version : Nat
  compatible_brands : List (List Nat)
deriving Repr, DecidableEq

/-- `FileTypeBox::parse`.  `inner_size - 8` is a debug-mode `u64`
subtraction. -/
def FileTypeBox.parse (r : Reader) (inner_size : Nat) : Except String (FileTypeBox × Reader) := do
  let (major_brand, r1) ← r.read_string 4
  let (minor_version, r2) ← r1.read_u32
  let remaining ← checkedSub inner_size 8
  let (compatible_brands, r3) ← readStrings4 (remaining / 4) r2
  pure (⟨major_brand, minor_version, compatible_brands⟩, r3)

/-- `MediaDataBox::parse` (`mdat`): skip the whole payload; a failed skip is
an `expect` panic naming the truncated box. -/
def MediaDataBox.parse (r : Reader) (inner_size : Nat) : Except String Reader :=
  match r.skip_bytes (u32cast inner_size) with
  | (Except.ok _, r1) => Except.ok r1
  | (Except.error _, _) => Except.error "Truncated 'mdat' box"

/-- `FreeSpaceBox::parse` (`free`): `assert_eq!(inner_size, 0)` — succeeds,
reading nothing, exactly when the declared inner size is 0. -/
def FreeSpaceBox.parse (r : Reader) (inner_size : Nat) : Except String Reader :=
  if inner_size = 0 then Except.ok r
  else Except.error "assertion failed: inner_size == 0"

/-- `mvhd` -/
structure MovieHeaderBox where
  creation_time : Nat
  modification_time : Nat
  timescale : Nat
  duration : Nat
  rate : ℚ
  volume : ℚ
  matrix : List Nat
  next_track_id : Nat
deriving Repr, DecidableEq

/-- `MovieHeaderBox::parse` (version 1 is a `todo!`). -/
def MovieHeaderBox.parse (r : Reader) (_inner_size : Nat) :
    Except String (MovieHeaderBox × Reader) := do
  let (full_box, r1) ← FullBoxHeader.parse r
  if full_box.version = 1 then
    Except.error "not yet implemented: mvhd version 1"
  else do
    let (creation_time, r2) ← r1.read_u32
    let (modification_time, r3) ← r2.read_u32
    let (timescale, r4) ← r3.read_u32
    let (duration, r5) ← r4.read_u32
    let (rate, r6) ← r5.read_fixed_point_16_16
    let (volume, r7) ← r6.read_fixed_point_8_8
    let (_reserved, r8) ← r7.read_string 2
    let (_reserved2, r9) ← r8.read_string 8
    let (matrix, r10) ← readU32s 9 r9
    let (_pre_defined, r11) ← readU32s 6 r10
    let (next_track_id, r12) ← r11.read_u32
    pure (⟨as_timestamp creation_time, as_timestamp modification_time, timescale,
      duration, rate, volume, matrix, next_track_id⟩, r12)

/-- `tkhd` -/
structure TrackHeaderBox where
  track_enabled : Bool
  track_in_movie : Bool
  track_in_preview : Bool
  creation_time : Nat
  modification_time : Nat
  track_id : Nat
  duration : Nat
  layer : Nat
  alternate_group : Nat
  volume : ℚ
  matrix : List Nat
  width : Nat
  height : Nat
deriving Repr, DecidableEq

/-- `TrackHeaderBox::parse` (version 1 is a `todo!`).  The enabled/in-movie/
in-preview bits live in flags byte 2. -/
def TrackHeaderBox.parse (r : Reader) (_inner_size : Nat) :
    Except String (TrackHeaderBox × Reader) := do
  let (full_box, r1) ← FullBoxHeader.parse r
  let fb2 := full_box.flags.getD 2 0
  let track_enabled := fb2 &&& 1 ≠ 0
  let track_in_movie := fb2 &&& 2 ≠ 0
  let track_in_preview := fb2 &&& 4 ≠ 0
  if full_box.version = 1 then
    Except.error "not yet implemented: tkhd version 1"
  else do
    let (creation_time, r2) ← r1.read_u32
    let (modification_time, r3) ← r2.read_u32
    let (track_id, r4) ← r3.read_u32
    let (_reserved, r5) ← r4.read_string 4
    let (duration, r6) ← r5.read_u32
    let (_reserved2, r7) ← r6.read_string 8
    let (layer, r8) ← r7.read_u16
    let (alternate_group, r9) ← r8.read_u16
    let (volume, r10) ← r9.read_fixed_point_8_8
    let (_reserved3, r11) ← r10.read_string 2
    let (matrix, r12) ← readU32s 9 r11
    let (width, r13) ← r12.read_u32
    let (height, r14) ← r13.read_u32
    pure (⟨track_enabled, track_in_movie, track_in_preview, as_timestamp creation_time,
      as_timestamp modification_time, track_id, duration, layer, alternate_group,
      volume, matrix, width, height⟩, r14)

/-- `mdhd` -/
structure MediaHeaderBox where
  creation_time : Nat
  modification_time : Nat
  timescale : Nat
  duration : Nat
  language : List Nat
deriving Repr, DecidableEq

/-- `MediaHeaderBox::parse` (version 1 is a `todo!`).  The 2 raw language
bytes are decoded with `langDecode` and then passed through
`String::from_utf8(..).unwrap()`. -/
def MediaHeaderBox.parse (r : Reader) (_inner_size : Nat) :
    Except String (MediaHeaderBox × Reader) := do
  let (full_box, r1) ← FullBoxHeader.parse r
  if full_box.version = 1 then
    Except.error "not yet implemented: mdhd version 1"
  else do
    let (creation_time, r2) ← r1.read_u32
    let (modification_time, r3) ← r2.read_u32
    let (timescale, r4) ← r3.read_u32
    let (duration, r5) ← r4.read_u32
    let (langBytes, r6) ← r5.readBytes 2
    let language ←
      match utf8Decode (langDecode (langBytes.getD 0 0) (langBytes.getD 1 0)) with
      | some cps => pure cps
      | none => Except.error "invalid utf-8 sequence"
    let (_pre_defined, r7) ← r6.readBytes 2
    pure (⟨as_timestamp creation_time, as_timestamp modification_time, timescale,
      duration, language⟩, r7)

/-- `hdlr` -/
structure HandlerReferenceBox where
  handler_type : List Nat
  name : List Nat
deriving Repr, DecidableEq

/-- `HandlerReferenceBox::parse`.  `inner_size - 24` is a debug-mode `u64`
subtraction. -/
def HandlerReferenceBox.parse (r : Reader) (inner_size : Nat) :
    Except String (HandlerReferenceBox × Reader) := do
  let (_full_box, r1) ← FullBoxHeader.parse r
  let (_predefined, r2) ← r1.read_string 4
  let (handler_type, r3) ← r2.read_string 4
  let (_reserved, r4) ← r3.read_string 12
  let remaining ← checkedSub inner_size 24
  let (name, r5) ← r4.read_string remaining
  pure (⟨handler_type, name⟩, r5)

/-- `vmhd` -/
structure VideoMediaHandler where
  graphicsmode : Nat
  opcolor : List Nat
deriving Repr, DecidableEq

/-- `VideoMediaHandler::parse`. -/
def VideoMediaHandler.parse (r : Reader) (_inner_size : Nat) :
    Except String (VideoMediaHandler × Reader) := do
  let (_full_box, r1) ← FullBoxHeader.parse r
  let (graphicsmode, r2) ← r1.read_u16
  let (opcolor, r3) ← r2.readBytes 6
  pure (⟨graphicsmode, opcolor⟩, r3)

/-- `smhd` -/
structure SoundMediaHandler where
  balance : ℚ
deriving Repr, DecidableEq

/-- `SoundMediaHandler::parse`. -/
def SoundMediaHandler.parse (r : Reader) (_inner_size : Nat) :
    Except String (SoundMediaHandler × Reader) := do
  let (_full_box, r1) ← FullBoxHeader.parse r
  let (balance, r2) ← r1.read_fixed_point_8_8
  let (_reserved, r3) ← r2.readBytes 2
  pure (⟨balance⟩, r3)

/-- `dref` -/
structure DataReferenceBox where
  entry_count : Nat
deriving Repr, DecidableEq

/-- `DataReferenceBox::parse` (header only; the drivers do not iterate its
entries). -/
def DataReferenceBox.parse (r : Reader) : Except String (DataReferenceBox × Reader) := do
  let (_full_box, r1) ← FullBoxHeader.parse r
  let (entry_count, r2) ← r1.read_u32
  pure (⟨entry_count⟩, r2)

/-- `elst` -/
structure EditListBox where
  entry_count : Nat
deriving Repr, DecidableEq

/-- `EditListBox::parse_header` (version 1 is a `todo!`). -/
def EditListBox.parse_header (r : Reader) : Except String (EditListBox × Reader) := do
  let (full_box, r1) ← FullBoxHeader.parse r
  if full_box.version = 1 then
    Except.error "not yet implemented: elst version 1"
  else do
    let (entry_count, r2) ← r1.read_u32
    pure (⟨entry_count⟩, r2)

/-- `stts` -/
structure DecodingTimeToSampleBox where
  entry_count : Nat
deriving Repr, DecidableEq

/-- `DecodingTimeToSampleBox::parse_header` (version 1 hits a `todo!` whose
text says "elst version 1", copied in the source). -/
def DecodingTimeToSampleBox.parse_header (r : Reader) :
    Except String (DecodingTimeToSampleBox × Reader) := do
  let (full_box, r1) ← FullBoxHeader.parse r
  if full_box.version = 1 then
    Except.error "not yet implemented: elst version 1"
  else do
    let (entry_count, r2) ← r1.read_u32
    pure (⟨entry_count⟩, r2)

/-- `stss` -/
structure SyncSampleBox where
  entry_count : Nat
deriving Repr, DecidableEq

/-- `SyncSampleBox::parse_header`. -/
def SyncSampleBox.parse_header (r : Reader) : Except String (SyncSampleBox × Reader) := do
  let (_full_box, r1) ← FullBoxHeader.parse r
  let (entry_count, r2) ← r1.read_u32
  pure (⟨entry_count⟩, r2)

/-- `ctts` -/
structure CompositionTimeToSampleBox where
  version : Nat
  entry_count : Nat
deriving Repr, DecidableEq

/-- `CompositionTimeToSampleBox::parse_header`. -/
def CompositionTimeToSampleBox.parse_header (r : Reader) :
    Except String (CompositionTimeToSampleBox × Reader) := do
  let (full_box, r1) ← FullBoxHeader.parse r
  let (entry_count, r2) ← r1.read_u32
  pure (⟨full_box.version, entry_count⟩, r2)

/-- `stsc` -/
structure SampleToChunkBox where
  entry_count : Nat
deriving Repr, DecidableEq

/-- `SampleToChunkBox::parse_header`. -/
def SampleToChunkBox.parse_header (r : Reader) : Except String (SampleToChunkBox × Reader) := do
  let (_full_box, r1) ← FullBoxHeader.parse r
  let (entry_count, r2) ← r1.read_u32
  pure (⟨entry_count⟩, r2)

/-- `stsz` -/
structure SampleSizeBox where
  sample_size : Nat
  sample_count : Nat
deriving Repr, DecidableEq

/-- `SampleSizeBox::parse_header`. -/
def SampleSizeBox.parse_header (r : Reader) : Except String (SampleSizeBox × Reader) := do
  let (_full_box, r1) ← FullBoxHeader.parse r
  let (sample_size, r2) ← r1.read_u32
  let (sample_count, r3) ← r2.read_u32
  pure (⟨sample_size, sample_count⟩, r3)

/-- `stco` -/
structure ChunkOffsetBox where
  entry_count : Nat
deriving Repr, DecidableEq

/-- `ChunkOffsetBox::parse_header`. -/
def ChunkOffsetBox.parse_header (r : Reader) : Except String (ChunkOffsetBox × Reader) := do
  let (_full_box, r1) ← FullBoxHeader.parse r
  let (entry_count, r2) ← r1.read_u32
  pure (⟨entry_count⟩, r2)

/-- `sgpd` (parse_header reads nothing). -/
def SampleGroupDescriptionBox.parse_header (r : Reader) : Except String Reader :=
  Except.ok r

/-- `sbgp` (parse_header reads nothing). -/
def SampleToGroupBox.parse_header (r : Reader) : Except String Reader :=
  Except.ok r

/-- `sdtp` (parse_header reads nothing). -/
def SampleDependencyTypeBox.parse_header (r : Reader) : Except String Reader :=
  Except.ok r

/-- `trex` -/
structure TrackExtendsBox where
  track_id : Nat
  default_sample_description_index : Nat
  default_sample_duration : Nat
  default_sample_size : Nat
  default_sample_flags : Nat
deriving Repr, DecidableEq

/-- `TrackExtendsBox::parse`. -/
def TrackExtendsBox.parse (r : Reader) (_inner_size : Nat) :
    Except String (TrackExtendsBox × Reader) := do
  let (_full_box, r1) ← FullBoxHeader.parse r
  let (track_id, r2) ← r1.read_u32
  let (dsdi, r3) ← r2.read_u32
  let (dsd, r4) ← r3.read_u32
  let (dss, r5) ← r4.read_u32
  let (dsf, r6) ← r5.read_u32
  pure (⟨track_id, dsdi, dsd, dss, dsf⟩, r6)

/-- `mfhd` -/
structure MovieFragmentHeaderBox where
  sequence_number : Nat
deriving Repr, DecidableEq

/-- `MovieFragmentHeaderBox::parse`. -/
def MovieFragmentHeaderBox.parse (r : Reader) (_inner_size : Nat) :
    Except String (MovieFragmentHeaderBox × Reader) := do
  let (_full_box, r1) ← FullBoxHeader.parse r
  let (sequence_number, r2) ← r1.read_u32
  pure (⟨sequence_number⟩, r2)

/-- `stsd` -/
structure SampleDescriptionBox where
  entry_count : Nat
deriving Repr, DecidableEq

/-- `SampleDescriptionBox::parse_header`. -/
def SampleDescriptionBox.parse_header (r : Reader) (_inner_size : Nat) :
    Except String (SampleDescriptionBox × Reader) := do
  let (_full_box, r1) ← FullBoxHeader.parse r
  let (entry_count, r2) ← r1.read_u32
  pure (⟨entry_count⟩, r2)

/-- `mp4a` sample entry -/
structure Mp4aAudioSampleEntry where
  data_reference_index : Nat
  channel_count : Nat
  sample_size : Nat
  sample_rate : ℚ
deriving Repr, DecidableEq

/-- `Mp4aAudioSampleEntry::parse` (6 reserved bytes read as a string, then
the 16-bit data-reference index, then the audio fields). -/
def Mp4aAudioSampleEntry.parse (r : Reader) : Except String (Mp4aAudioSampleEntry × Reader) := do
  let (_reserved, r1) ← r.read_string 6
  let (data_reference_index, r2) ← r1.read_u16
  let (_reserved2, r3) ← r2.readBytes 8
  let (channel_count, r4) ← r3.read_u16
  let (sample_size, r5) ← r4.read_u16
  let (_predefined, r6) ← r5.readBytes 2
  let (_reserved3, r7) ← r6.readBytes 2
  let (sample_rate, r8) ← r7.read_fixed_point_16_16
  pure (⟨data_reference_index, channel_count, sample_size, sample_rate⟩, r8)

/-- `avc1` sample entry -/
structure Avc1VisualSampleEntry where
  data_reference_index : Nat
  width : Nat
  height : Nat
  hor_resolution : ℚ
  ver_resolution : ℚ
  frame_count : Nat
  compressor_name : List Nat
  depth : Nat
deriving Repr, DecidableEq

/-- `Avc1VisualSampleEntry::parse`. -/
def Avc1VisualSampleEntry.parse (r : Reader) : Except String (Avc1VisualSampleEntry × Reader) := do
  let (_reserved, r1) ← r.read_string 6
  let (data_reference_index, r2) ← r1.read_u16
  let r3 ← r2.skipE 2
  let r4 ← r3.skipE 2
  let r5 ← r4.skipE 12
  let (width, r6) ← r5.read_u16
  let (height, r7) ← r6.read_u16
  let (hor_resolution, r8) ← r7.read_fixed_point_16_16
  let (ver_resolution, r9) ← r8.read_fixed_point_16_16
  let r10 ← r9.skipE 4
  let (frame_count, r11) ← r10.read_u16
  let (compressor_name, r12) ← r11.read_string 32
  let (depth, r13) ← r12.read_u16
  let r14 ← r13.skipE 2
  pure (⟨data_reference_index, width, height, hor_resolution, ver_resolution,
    frame_count, compressor_name, depth⟩, r14)

/-- `SampleEntry`: the union of sample-description entries. -/
inductive SampleEntry where
  | mp4a (e : Mp4aAudioSampleEntry)
  | avc1 (e : Avc1VisualSampleEntry)
deriving Repr, DecidableEq

/-- `SampleDescriptionBox::parse_entry`: a box-framed pseudo-box; any tag
other than `mp4a` / `avc1` hits the
`panic!("Unhandled sample description entry: ..")`. -/
def SampleDescriptionBox.parse_entry (_b : SampleDescriptionBox) (r : Reader) :
    Except String (SampleEntry × Reader) := do
  let (header, r1) ← BoxHeader.parse r
  if header.box_type = mp4aTag then do
    let (e, r2) ← Mp4aAudioSampleEntry.parse r1
    pure (SampleEntry.mp4a e, r2)
  else if header.box_type = avc1Tag then do
    let (e, r2) ← Avc1VisualSampleEntry.parse r1
    pure (SampleEntry.avc1 e, r2)
  else
    Except.error ("Unhandled sample description entry: " ++ cpsToString header.box_type)

/-- `EncoderTag::parse` (src/quicktime.rs): the tag content is a text blob
filling the declared inner size. -/
def EncoderTag.parse (r : Reader) (inner_size : Nat) : Except String (List Nat × Reader) :=
  r.read_string inner_size

/-- `MetadataItemList::parse_entry` (src/quicktime.rs): box-framed metadata
item; only the encoder tag `©too` is handled, everything else hits a
`todo!`. -/
def MetadataItemList.parse_entry (r : Reader) : Except String (List Nat × Reader) := do
  let (header, r1) ← BoxHeader.parse r
  if header.box_type = tooTag then
    EncoderTag.parse r1 header.inner_size
  else
    Except.error ("not yet implemented: Handle quicktime metadata item entry: " ++
      cpsToString header.box_type)

/-- `Mp4Box`: the tagged union of parsed boxes (src/boxes.rs). -/
inductive Mp4Box where
  | quickTimeMetadataItemList
  | ftyp (b : FileTypeBox)
  | free
  | mdat
  | container (title : String)
  | mvhd (b : MovieHeaderBox)
  | tkhd (b : TrackHeaderBox)
  | elst (b : EditListBox)
  | mdhd (b : MediaHeaderBox)
  | hdlr (b : HandlerReferenceBox)
  | vmhd (b : VideoMediaHandler)
  | smhd (b : SoundMediaHandler)
  | dref (b : DataReferenceBox)
  | stsd (b : SampleDescriptionBox)
  | stts (b : DecodingTimeToSampleBox)
  | stss (b : SyncSampleBox)
  | ctts (b : CompositionTimeToSampleBox)
  | stsc (b : SampleToChunkBox)
  | stsz (b : SampleSizeBox)
  | stco (b : ChunkOffsetBox)
  | sgpd
  | sbgp
  | sdtp
  | trex (b : TrackExtendsBox)
  | mfhd (b : MovieFragmentHeaderBox)
deriving Repr, DecidableEq

/-- `Mp4Box::parse_contents`: dispatch on the decoded type tag, in source
order; an unrecognized tag yields `none` (the driver then applies its
unknown-type policy).  The QuickTime warning printed for the `qt  ` major
brand is a side effect without influence on the result and is not
modelled. -/
def Mp4Box.parse_contents (r : Reader) (box_type : List Nat) (inner_size : Nat) :
    Except String (Option Mp4Box × Reader) :=
  if box_type = ftypTag then do
    let (b, r1) ← FileTypeBox.parse r inner_size
    pure (some (Mp4Box.ftyp b), r1)
  else if box_type = freeTag then do
    let r1 ← FreeSpaceBox.parse r inner_size
    pure (some Mp4Box.free, r1)
  else if box_type = mdatTag then do
    let r1 ← MediaDataBox.parse r inner_size
    pure (some Mp4Box.mdat, r1)
  else if box_type = moovTag then
    pure (some (Mp4Box.container "Movie Box (container)"), r)
  else if box_type = mvhdTag then do
    let (b, r1) ← MovieHeaderBox.parse r inner_size
    pure (some (Mp4Box.mvhd b), r1)
  else if box_type = trakTag then
    pure (some (Mp4Box.container "Track Box (container)"), r)
  else if box_type = tkhdTag then do
    let (b, r1) ← TrackHeaderBox.parse r inner_size
    pure (some (Mp4Box.tkhd b), r1)
  else if box_type = edtsTag then
    pure (some (Mp4Box.container "Edit Box (container)"), r)
  else if box_type = elstTag then do
    let (b, r1) ← EditListBox.parse_header r
    pure (some (Mp4Box.elst b), r1)
  else if box_type = mdiaTag then
    pure (some (Mp4Box.container "Media Box (container)"), r)
  else if box_type = mdhdTag then do
    let (b, r1) ← MediaHeaderBox.parse r inner_size
    pure (some (Mp4Box.mdhd b), r1)
  else if box_type = hdlrTag then do
    let (b, r1) ← HandlerReferenceBox.parse r inner_size
    pure (some (Mp4Box.hdlr b), r1)
  else if box_type = minfTag then
    pure (some (Mp4Box.container "Media Information Box (container)"), r)
  else if box_type = vmhdTag then do
    let (b, r1) ← VideoMediaHandler.parse r inner_size
    pure (some (Mp4Box.vmhd b), r1)
  else if box_type = smhdTag then do
    let (b, r1) ← SoundMediaHandler.parse r inner_size
    pure (some (Mp4Box.smhd b), r1)
  else if box_type = dinfTag then
    pure (some (Mp4Box.container "Data Information Box (container)"), r)
  else if box_type = drefTag then do
    let (b, r1) ← DataReferenceBox.parse r
    pure (some (Mp4Box.dref b), r1)
  else if box_type = stblTag then
    pure (some (Mp4Box.container "Sample Table Box (container)"), r)
  else if box_type = stsdTag then do
    let (b, r1) ← SampleDescriptionBox.parse_header r inner_size
    pure (some (Mp4Box.stsd b), r1)
  else if box_type = sttsTag then do
    let (b, r1) ← DecodingTimeToSampleBox.parse_header r
    pure (some (Mp4Box.stts b), r1)
  else if box_type = stssTag then do
    let (b, r1) ← SyncSampleBox.parse_header r
    pure (some (Mp4Box.stss b), r1)
  else if box_type = cttsTag then do
    let (b, r1) ← CompositionTimeToSampleBox.parse_header r
    pure (some (Mp4Box.ctts b), r1)
  else if box_type = stscTag then do
    let (b, r1) ← SampleToChunkBox.parse_header r
    pure (some (Mp4Box.stsc b), r1)
  else if box_type = stszTag then do
    let (b, r1) ← SampleSizeBox.parse_header r
    pure (some (Mp4Box.stsz b), r1)
  else if box_type = stcoTag then do
    let (b, r1) ← ChunkOffsetBox.parse_header r
    pure (some (Mp4Box.stco b), r1)
  else if box_type = sgpdTag then do
    let r1 ← SampleGroupDescriptionBox.parse_header r
    pure (some Mp4Box.sgpd, r1)
  else if box_type = sbgpTag then do
    let r1 ← SampleToGroupBox.parse_header r
    pure (some Mp4Box.sbgp, r1)
  else if box_type = sdtpTag then do
    let r1 ← SampleDependencyTypeBox.parse_header r
    pure (some Mp4Box.sdtp, r1)
  else if box_type = mvexTag then
    pure (some (Mp4Box.container "Movie Extends Box (container)"), r)
  else if box_type = trexTag then do
    let (b, r1) ← TrackExtendsBox.parse r inner_size
    pure (some (Mp4Box.trex b), r1)
  else if box_type = moofTag then
    pure (some (Mp4Box.container "Movie Fragment Box (container)"), r)
  else if box_type = mfhdTag then do
    let (b, r1) ← MovieFragmentHeaderBox.parse r inner_size
    pure (some (Mp4Box.mfhd b), r1)
  else if box_type = trafTag then
    pure (some (Mp4Box.container "Track Fragment Box (container)"), r)
  else if box_type = mfraTag then
    pure (some (Mp4Box.container "Movie Fragment Random Access Box (container)"), r)
  else if box_type = udtaTag then
    pure (some (Mp4Box.container "User Data Box (container)"), r)
  else if box_type = metaTag then do
    let (_full_box, r1) ← FullBoxHeader.parse r
    pure (some (Mp4Box.container "The Meta Box (container)"), r1)
  else if box_type = ilstTag then
    pure (some Mp4Box.quickTimeMetadataItemList, r)
  else
    pure (none, r)

/-- The unknown-type policy parameter (`HandleUnknown` in both
src/parser.rs and src/bin/parse.rs): `skip` consumes the unknown box's
declared payload, `panic` aborts with the `todo!` panic. -/
inductive HandleUnknown where
  | skip
  | panic
deriving Repr, DecidableEq

/-! ### The legacy recursive parser (src/parser.rs)

The Rust functions recurse while the cursor advances; the embedding adds an
explicit fuel argument, decremented on every nested call, so that the
functions are total.  "out of fuel" is never reached in any theorem below:
every statement either supplies enough fuel for the concrete input or
quantifies over a sufficient fuel. -/

namespace Legacy

/-- The edit-list entry loop of the `elst` arm (the `todo!` for version 1
sits inside the loop body, so it only fires when the entry count is
positive). -/
def elstEntries (version : Nat) : Nat → Reader → Except String Reader
  | 0, r => pure r
  | n + 1, r =>
    if version = 1 then Except.error "not yet implemented: elst version 1"
    else do
      let (_segment_duration, r1) ← r.read_u32
      let (_media_time, r2) ← r1.read_i32
      let (_media_rate_integer, r3) ← r2.read_i16
      let (_media_rate_fraction, r4) ← r3.read_i16
      elstEntries version n r4

mutual

/-- `parse_box` of src/parser.rs: reads the box framing inline (note the
strict UTF-8 `read_string(4)` for the tag) and handles each known tag in
source order; unknown tags are skipped or rejected according to
`handle_unknown`. -/
def parse_box : Nat → HandleUnknown → Reader → Except String Reader
  | 0, _, _ => Except.error "out of fuel"
  | fuel + 1, handle_unknown, r => do
    let start_offset := r.position
    let (size0, r1) ← r.read_u32
    let (box_type, r2) ← r1.read_string 4
    let (size, r3) ←
      if size0 = 1 then
        r2.read_u64
      else if size0 = 0 then
        Except.error ("not yet implemented: Handle box with size=0 (box '" ++
          cpsToString box_type ++ "' extends to EOF)")
      else
        pure (size0, r2)
    if size < 8 then
      Except.error ("Box " ++ cpsToString box_type ++ " (at " ++ toString start_offset ++
        ") has invalid size: " ++ toString size)
    else
      let inner_size := size - 8
      if box_type = ftypTag then do
        let (_major_brand, r4) ← r3.read_string 4
        let (_minor_version, r5) ← r4.read_u32
        let remaining ← checkedSub inner_size 8
        let (_compatible_brands, r6) ← readStrings4 (remaining / 4) r5
        pure r6
      else if box_type = freeTag then
        if inner_size = 0 then pure r3
        else Except.error "assertion failed: inner_size == 0"
      else if box_type = mdatTag then
        match r3.skip_bytes (u32cast inner_size) with
        | (Except.ok _, r4) => pure r4
        | (Except.error _, _) => Except.error "Truncated 'mdat' box"
      else if box_type = moovTag then
        boxLoop fuel HandleUnknown.panic (r3.position + inner_size) r3
      else if box_type = mvhdTag then do
        let (version, r4) ← r3.read_u8
        let (_flags, r5) ← r4.readBytes 3
        if version = 1 then
          Except.error "not yet implemented: mvhd version 1"
        else do
          let (_creation_time, r6) ← r5.read_u32
          let (_modification_time, r7) ← r6.read_u32
          let (_timescale, r8) ← r7.read_u32
          let (_duration, r9) ← r8.read_u32
          let (_rate, r10) ← r9.read_fixed_point_16_16
          let (_volume, r11) ← r10.read_fixed_point_8_8
          let (_reserved, r12) ← r11.read_string 2
          let (_reserved2, r13) ← r12.read_string 8
          let (_matrix, r14) ← readU32s 9 r13
          let (_pre_defined, r15) ← readU32s 6 r14
          let (_next_track_id, r16) ← r15.read_u32
          pure r16
      else if box_type = trakTag then
        boxLoop fuel HandleUnknown.panic (r3.position + inner_size) r3
      else if box_type = tkhdTag then do
        let (version, r4) ← r3.read_u8
        let (_flags, r5) ← r4.readBytes 3
        if version = 1 then
          Except.error "not yet implemented: tkhd version 1"
        else do
          let (_creation_time, r6) ← r5.read_u32
          let (_modification_time, r7) ← r6.read_u32
          let (_track_id, r8) ← r7.read_u32
          let (_reserved, r9) ← r8.read_string 4
          let (_duration, r10) ← r9.read_u32
          let (_reserved2, r11) ← r10.read_string 8
          let (_layer, r12) ← r11.read_u16
          let (_alternate_group, r13) ← r12.read_u16
          let (_volume, r14) ← r13.read_fixed_point_8_8
          let (_reserved3, r15) ← r14.read_string 2
          let (_matrix, r16) ← readU32s 9 r15
          let (_width, r17) ← r16.read_u32
          let (_height, r18) ← r17.read_u32
          pure r18
      else if box_type = edtsTag then
        boxLoop fuel HandleUnknown.panic (r3.position + inner_size) r3
      else if box_type = elstTag then do
        let (version, r4) ← r3.read_u8
        let (_flags, r5) ← r4.readBytes 3
        let (entry_count, r6) ← r5.read_u32
        elstEntries version entry_count r6
      else if box_type = mdiaTag then
        boxLoop fuel HandleUnknown.panic (r3.position + inner_size) r3
      else if box_type = mdhdTag then do
        let (version, r4) ← r3.read_u8
        let (_flags, r5) ← r4.readBytes 3
        if version = 1 then
          Except.error "not yet implemented: mdhd version 1"
        else do
          let (_creation_time, r6) ← r5.read_u32
          let (_modification_time, r7) ← r6.read_u32
          let (_timescale, r8) ← r7.read_u32
          let (_duration, r9) ← r8.read_u32
          let (langBytes, r10) ← r9.readBytes 2
          let _language ←
            match utf8Decode (langDecode (langBytes.getD 0 0) (langBytes.getD 1 0)) with
            | some cps => pure cps
            | none => Except.error "invalid utf-8 sequence"
          let (_pre_defined, r11) ← r10.readBytes 2
          pure r11
      else if box_type = hdlrTag then do
        let (_version, r4) ← r3.read_u8
        let (_flags, r5) ← r4.readBytes 3
        let (_predefined, r6) ← r5.read_string 4
        let (_handler_type, r7) ← r6.read_string 4
        let (_reserved, r8) ← r7.read_string 12
        let remaining ← checkedSub inner_size 24
        let (_name, r9) ← r8.read_string remaining
        pure r9
      else if box_type = minfTag then
        boxLoop fuel HandleUnknown.panic (r3.position + inner_size) r3
      else if box_type = vmhdTag then do
        let (_version, r4) ← r3.read_u8
        let (_flags, r5) ← r4.readBytes 3
        let (_graphicsmode, r6) ← r5.read_u16
        let (_opcolor, r7) ← r6.readBytes 6
        pure r7
      else if box_type = smhdTag then do
        let (_version, r4) ← r3.read_u8
        let (_flags, r5) ← r4.readBytes 3
        let (_balance, r6) ← r5.read_fixed_point_8_8
        let (_reserved, r7) ← r6.readBytes 2
        pure r7
      else if box_type = dinfTag then
        boxLoop fuel HandleUnknown.panic (r3.position + inner_size) r3
      else if box_type = drefTag then do
        let (_version, r4) ← r3.read_u8
        let (_flags, r5) ← r4.readBytes 3
        let (entry_count, r6) ← r5.read_u32
        countLoop fuel HandleUnknown.panic entry_count r6
      else if box_type = urlTag then do
        let (_version, r4) ← r3.read_u8
        let (flags, r5) ← r4.readBytes 3
        if flags = [0, 0, 1] then pure r5
        else Except.error "not yet implemented: Handle external media URL"
      else if box_type = stblTag then
        boxLoop fuel HandleUnknown.panic (r3.position + inner_size) r3
      else if box_type = stsdTag then do
        let (_version, r4) ← r3.read_u8
        let (_flags, r5) ← r4.readBytes 3
        let (entry_count, r6) ← r5.read_u32
        countLoop fuel HandleUnknown.skip entry_count r6
      else if box_type = avc1Tag ∨ box_type = mp4aTag then do
        let (_reserved, r4) ← r3.read_string 6
        let (_data_reference_index, r5) ← r4.read_u16
        let remaining ← checkedSub inner_size 8
        r5.skipE (u32cast remaining)
      else if box_type = sttsTag then do
        let (_version, r4) ← r3.read_u8
        let (_flags, r5) ← r4.readBytes 3
        let (entry_count, r6) ← r5.read_u32
        let n ← checkedMulU32 8 entry_count
        r6.skipE n
      else if box_type = stssTag then do
        let (_version, r4) ← r3.read_u8
        let (_flags, r5) ← r4.readBytes 3
        let (entry_count, r6) ← r5.read_u32
        let n ← checkedMulU32 4 entry_count
        r6.skipE n
      else if box_type = cttsTag then
        r3.skipE (u32cast inner_size)
      else if box_type = stscTag then
        r3.skipE (u32cast inner_size)
      else if box_type = stszTag then
        r3.skipE (u32cast inner_size)
      else if box_type = stcoTag then
        r3.skipE (u32cast inner_size)
      else if box_type = sgpdTag then
        r3.skipE (u32cast inner_size)
      else if box_type = sbgpTag then
        r3.skipE (u32cast inner_size)
      else if box_type = sdtpTag then
        r3.skipE (u32cast inner_size)
      else if box_type = udtaTag then
        boxLoop fuel HandleUnknown.skip (r3.position + inner_size) r3
      else if box_type = metaTag then do
        let (_version, r4) ← r3.read_u8
        let (_flags, r5) ← r4.readBytes 3
        let remaining ← checkedSub inner_size 4
        boxLoop fuel HandleUnknown.panic (r5.position + remaining) r5
      else if box_type = ilstTag then
        match r3.skip_bytes (u32cast inner_size) with
        | (Except.ok _, r4) => pure r4
        | (Except.error _, _) => Except.error "Truncated 'ilst' box"
      else
        match handle_unknown with
        | HandleUnknown.skip =>
          match r3.skip_bytes (u32cast inner_size) with
          | (Except.ok _, r4) => pure r4
          | (Except.error e, _) =>
            Except.error ("Truncated '" ++ cpsToString box_type ++ "' box: " ++ e)
        | HandleUnknown.panic =>
          Except.error ("not yet implemented: Unhandled box: " ++ cpsToString box_type ++
            " (inner size: " ++ toString inner_size ++ ")")

/-- The `while reader.position() < end_offset` child loop of the container
arms of src/parser.rs. -/
def boxLoop : Nat → HandleUnknown → Nat → Reader → Except String Reader
  | 0, _, _, _ => Except.error "out of fuel"
  | fuel + 1, handle_unknown, end_offset, r =>
    if r.position < end_offset then do
      let r1 ← parse_box fuel handle_unknown r
      boxLoop fuel handle_unknown end_offset r1
    else
      pure r

/-- The `for _ in 0..entry_count` child loop of the `dref` and `stsd` arms
of src/parser.rs. -/
def countLoop : Nat → HandleUnknown → Nat → Reader → Except String Reader
  | 0, _, _, _ => Except.error "out of fuel"
  | _ + 1, _, 0, r => pure r
  | fuel + 1, handle_unknown, n + 1, r => do
    let r1 ← parse_box fuel handle_unknown r
    countLoop fuel handle_unknown n r1

end

/-- `parse_mp4` of src/parser.rs: parse top-level boxes (policy `Panic`)
until the end of the buffer. -/
def parse_mp4 (fuel : Nat) (buf : List Nat) : Except String Reader :=
  boxLoop fuel HandleUnknown.panic buf.length (Reader.new buf)

end Legacy

/-! ### The structured driver (src/bin/parse.rs) -/

namespace BinParse

/-- The post-step of the drivers (src/bin/parse.rs lines 153-157 and the
identical src/bin/info.rs lines 138-141):
`let remaining = (box_end_offset - reader.position()) as u32` — a debug-mode
`u64` subtraction followed by a truncating `u32` cast — then skip when the
result is positive. -/
def skipRemaining (box_end_offset : Nat) (r : Reader) : Except String Reader := do
  let rem0 ← checkedSub box_end_offset r.position
  let remaining := u32cast rem0
  if remaining > 0 then r.skipE remaining else pure r

/-- The `for _ in 0..entry_count { sample_description_box.parse_entry(..) }`
loop of the `Stsd` driver arm. -/
def stsdEntries (b : SampleDescriptionBox) : Nat → Reader → Except String Reader
  | 0, r => pure r
  | n + 1, r => do
    let (_entry, r1) ← b.parse_entry r
    stsdEntries b n r1

/-- The `while reader.position() < box_end_offset { .. parse_entry(..) }`
loop of the `QuickTimeMetadataItemList` driver arm (fuel-indexed; each entry
consumes at least a header, so any fuel beyond the entry count behaves
identically). -/
def ilstEntries : Nat → Nat → Reader → Except String Reader
  | 0, _, _ => Except.error "out of fuel"
  | fuel + 1, box_end_offset, r =>
    if r.position < box_end_offset then do
      let (_tag, r1) ← MetadataItemList.parse_entry r
      ilstEntries fuel box_end_offset r1
    else
      pure r

/-- `_parse` of src/bin/parse.rs: the recursive-descent driver.  Parses
boxes while the cursor is before `end_offset`; every container recurses with
the `Skip` policy over `[position, box_end_offset)`; unknown boxes are
skipped or rejected according to `handle_unknown`; finally the post-step
`skipRemaining` advances to the box end. -/
def parseLoop : Nat → HandleUnknown → Nat → Reader → Except String Reader
  | 0, _, _, _ => Except.error "out of fuel"
  | fuel + 1, handle_unknown, end_offset, r =>
    if r.position < end_offset then do
      let box_start_offset := r.position
      let (header, r1) ← BoxHeader.parse r
      let (mb, r2) ← Mp4Box.parse_contents r1 header.box_type header.inner_size
      match mb with
      | none =>
        match handle_unknown with
        | HandleUnknown.skip => do
          let r3 ←
            match r2.skip_bytes (u32cast header.inner_size) with
            | (Except.ok _, r3) => pure r3
            | (Except.error e, _) =>
              Except.error ("Truncated '" ++ cpsToString header.box_type ++ "' box: " ++ e)
          parseLoop fuel handle_unknown end_offset r3
        | HandleUnknown.panic =>
          Except.error ("not yet implemented: Unhandled box: " ++
            cpsToString header.box_type ++ " (inner size: " ++
            toString header.inner_size ++ ")")
      | some box_ => do
        let box_end_offset := box_start_offset + header.box_size
        let r3 ←
          match box_ with
          | Mp4Box.container _ => parseLoop fuel HandleUnknown.skip box_end_offset r2
          | Mp4Box.quickTimeMetadataItemList => ilstEntries fuel box_end_offset r2
          | Mp4Box.stsd b => stsdEntries b b.entry_count r2
          | _ => pure r2
        let r4 ← skipRemaining box_end_offset r3
        parseLoop fuel handle_unknown end_offset r4
    else
      pure r

/-- `parse_mp4` of src/bin/parse.rs: run the driver over the whole buffer
with the `Panic` policy at the top level. -/
def parse_mp4 (fuel : Nat) (buf : List Nat) : Except String Reader :=
  parseLoop fuel HandleUnknown.panic buf.length (Reader.new buf)

end BinParse

/-! ## Theorems -/

/-- Reducing a bind applied to a successful result. -/
theorem okBind {α β : Type} (a : α) (f : α → Except String β) :
    (Except.ok a >>= f) = f a := rfl

/-- Reducing a bind applied to a failed result. -/
theorem errBind {α β : Type} (e : String) (f : α → Except String β) :
    ((Except.error e : Except String α) >>= f) = Except.error e := rfl

/-- Claim C1, code bug.  For a box header whose 32-bit size field equals 1,
`BoxHeader::parse` reads the 64-bit largesize but then computes
`inner_size = largesize − 8`, not `largesize − 16` as the claim (and the
spec) state: evaluated at the 16-byte input with size field 1, type `free`
and largesize 16, the code yields `inner_size = 8` where the claim requires
an effective payload size of 0 (and `8 ≠ 16 − 16`). -/
theorem claim_C1_largesize_inner_size :
    BoxHeader.parse (Reader.new [0, 0, 0, 1, 102, 114, 101, 101, 0, 0, 0, 0, 0, 0, 0, 16]) =
      Except.ok (⟨0, 16, freeTag, 8⟩,
        ⟨[0, 0, 0, 1, 102, 114, 101, 101, 0, 0, 0, 0, 0, 0, 0, 16], 16⟩) ∧
    (8 : Nat) ≠ 16 - 16 :=
  ⟨rfl, by decide⟩

/-- Claim C6, confirmed.  `Reader::skip_bytes` succeeds, advancing the
position by exactly `n`, precisely when `pos + n ≤ buf.length`; otherwise it
returns the descriptive bounds error naming the attempted skip size, the
current position (and target) and the buffer length, leaving the cursor
unchanged. -/
theorem claim_C6_skip_bounds :
    ∀ (buf : List Nat) (pos n : Nat),
      (pos + n ≤ buf.length →
        Reader.skip_bytes ⟨buf, pos⟩ n = (Except.ok (), ⟨buf, pos + n⟩)) ∧
      (buf.length < pos + n →
        Reader.skip_bytes ⟨buf, pos⟩ n =
          (Except.error ("Seeking " ++ toString n ++ " from " ++ toString pos ++
            " would land on " ++ toString (pos + n) ++ ", but the file is only " ++
            toString buf.length ++ " bytes long"), ⟨buf, pos⟩)) := by
  intro buf pos n
  constructor
  · intro h
    unfold Reader.skip_bytes
    dsimp only
    rw [if_neg (by omega)]
  · intro h
    unfold Reader.skip_bytes
    dsimp only
    rw [if_pos (by omega)]

/-- Witness for claim C6 at concrete inputs: a skip of 2 inside a 3-byte
buffer succeeds, a skip of 5 fails with the descriptive message and an
unmoved cursor. -/
theorem claim_C6_skip_bounds_witness :
    Reader.skip_bytes ⟨[1, 2, 3], 0⟩ 2 = (Except.ok (), ⟨[1, 2, 3], 2⟩) ∧
    Reader.skip_bytes ⟨[1, 2, 3], 0⟩ 5 =
      (Except.error "Seeking 5 from 0 would land on 5, but the file is only 3 bytes long",
        ⟨[1, 2, 3], 0⟩) := by
  refine ⟨(claim_C6_skip_bounds [1, 2, 3] 0 2).1 (by decide), ?_⟩
  have h := (claim_C6_skip_bounds [1, 2, 3] 0 5).2 (by decide)
  exact h

set_option maxRecDepth 4000 in
/-- Claim C8, confirmed.  The packed-language decoder extracts the three
5-bit fields at bits 14..10, 9..5 and 4..0 of the big-endian 16-bit value
`b0 * 256 + b1` and adds `0x60` to each; the field values 21, 14, 4 (bytes
`0x55 0xC4`) decode to `und`. -/
theorem claim_C8_language :
    (∀ b0, b0 < 256 → ∀ b1, b1 < 256 →
      langDecode b0 b1 =
        [((b0 * 256 + b1) >>> 10) % 32 + 0x60, ((b0 * 256 + b1) >>> 5) % 32 + 0x60,
         (b0 * 256 + b1) % 32 + 0x60]) ∧
    langDecode 85 196 = [117, 110, 100] := by
  constructor
  · have h1 : ∀ b0, b0 < 256 → (b0 &&& 0x7C) >>> 2 = b0 / 4 % 32 := by decide
    have h2 : ∀ b0, b0 < 256 → (b0 &&& 0x03) <<< 3 = b0 % 4 * 8 := by decide
    have h3 : ∀ b1, b1 < 256 → (b1 &&& 0xE0) >>> 5 = b1 / 32 := by decide
    have h4 : ∀ b1, b1 < 256 → b1 &&& 0x1F = b1 % 32 := by decide
    intro b0 hb0 b1 hb1
    unfold langDecode
    rw [h1 b0 hb0, h2 b0 hb0, h3 b1 hb1, h4 b1 hb1,
      Nat.shiftRight_eq_div_pow, Nat.shiftRight_eq_div_pow]
    have e10 : (2 : Nat) ^ 10 = 1024 := by norm_num
    have e5 : (2 : Nat) ^ 5 = 32 := by norm_num
    rw [e10, e5]
    simp only [List.cons.injEq, and_true]
    refine ⟨by omega, by omega, by omega⟩
  · rfl

/-- Witness for claim C8: the general field decomposition applied at the
concrete bytes `0x55 0xC4`. -/
theorem claim_C8_language_witness :
    langDecode 85 196 =
      [((85 * 256 + 196) >>> 10) % 32 + 0x60, ((85 * 256 + 196) >>> 5) % 32 + 0x60,
       (85 * 256 + 196) % 32 + 0x60] :=
  claim_C8_language.1 85 (by decide) 196 (by decide)

/-- Claim C10, confirmed.  Parsing a free-space box succeeds — yielding the
`Free` marker and consuming no payload bytes — exactly when the declared
inner size is 0; a nonzero inner size hits the `assert_eq!` instead of the
general trailing-bytes skip. -/
theorem claim_C10_free_space :
    (∀ (r : Reader) (inner_size : Nat),
      FreeSpaceBox.parse r inner_size =
        (if inner_size = 0 then Except.ok r
         else Except.error "assertion failed: inner_size == 0")) ∧
    (∀ (r : Reader) (inner_size : Nat),
      Mp4Box.parse_contents r freeTag inner_size =
        (if inner_size = 0 then Except.ok (some Mp4Box.free, r)
         else Except.error "assertion failed: inner_size == 0")) := by
  constructor
  · intro r n
    rfl
  · intro r n
    by_cases h : n = 0
    · subst h; rfl
    · simp only [Mp4Box.parse_contents, FreeSpaceBox.parse, if_neg h]
      rfl

/-- Reducing a bind applied to a pure result. -/
theorem pureBind {α β : Type} (a : α) (f : α → Except String β) :
    ((pure a : Except String α) >>= f) = f a := rfl

/-- Claim C5, confirmed.  For a box header whose size field is neither 0
nor 1, `BoxHeader::parse` fails with the malformed-box message naming the
decoded box type, the start offset and the invalid size whenever the size is
below 8, and otherwise succeeds with `inner_size = size − 8`. -/
theorem claim_C5_header_size :
    ∀ (r r1 r2 : Reader) (sz : Nat) (tagBytes : List Nat),
      Reader.read_u32 r = Except.ok (sz, r1) →
      Reader.readBytes r1 4 = Except.ok (tagBytes, r2) →
      sz ≠ 0 → sz ≠ 1 →
      (sz < 8 →
        BoxHeader.parse r = Except.error ("Box " ++ cpsToString (tagDecode tagBytes) ++
          " (at " ++ toString r.position ++ ") has invalid size: " ++ toString sz)) ∧
      (8 ≤ sz →
        BoxHeader.parse r = Except.ok (⟨r.position, sz, tagDecode tagBytes, sz - 8⟩, r2)) := by
  intro r r1 r2 sz tagBytes h1 h2 h0 hne1
  constructor
  · intro hlt
    unfold BoxHeader.parse
    rw [h1, okBind]
    dsimp only
    rw [h2, okBind]
    dsimp only
    rw [if_neg hne1, if_neg h0, pureBind]
    dsimp only
    rw [if_pos hlt]
  · intro hge
    unfold BoxHeader.parse
    rw [h1, okBind]
    dsimp only
    rw [h2, okBind]
    dsimp only
    rw [if_neg hne1, if_neg h0, pureBind]
    dsimp only
    rw [if_neg (by omega)]
    rfl

/-- Witness for claim C5: a header with size 7 fails with the malformed-box
message; a header with size 8 yields `inner_size = 0`. -/
theorem claim_C5_header_size_witness :
    BoxHeader.parse (Reader.new [0, 0, 0, 7, 102, 114, 101, 101]) =
      Except.error ("Box " ++ cpsToString (tagDecode [102, 114, 101, 101]) ++
        " (at " ++ toString (Reader.new [0, 0, 0, 7, 102, 114, 101, 101]).position ++
        ") has invalid size: " ++ toString (7 : Nat)) ∧
    BoxHeader.parse (Reader.new [0, 0, 0, 8, 102, 114, 101, 101]) =
      Except.ok
        (⟨(Reader.new [0, 0, 0, 8, 102, 114, 101, 101]).position, 8,
          tagDecode [102, 114, 101, 101], 8 - 8⟩,
         ⟨[0, 0, 0, 8, 102, 114, 101, 101], 8⟩) := by
  constructor
  · exact (claim_C5_header_size (Reader.new [0, 0, 0, 7, 102, 114, 101, 101])
      ⟨[0, 0, 0, 7, 102, 114, 101, 101], 4⟩ ⟨[0, 0, 0, 7, 102, 114, 101, 101], 8⟩
      7 [102, 114, 101, 101] rfl rfl (by decide) (by decide)).1 (by decide)
  · exact (claim_C5_header_size (Reader.new [0, 0, 0, 8, 102, 114, 101, 101])
      ⟨[0, 0, 0, 8, 102, 114, 101, 101], 4⟩ ⟨[0, 0, 0, 8, 102, 114, 101, 101], 8⟩
      8 [102, 114, 101, 101] rfl rfl (by decide) (by decide)).2 (by decide)

/-- Evaluation helper: a successful 4-byte read determines the 16.16
decode result. -/
theorem fpEval1616 (r r1 : Reader) (bs : List Nat)
    (h : Reader.readBytes r 4 = Except.ok (bs, r1)) :
    Reader.read_fixed_point_16_16 r =
      Except.ok (((f32ofNat (Reader.be bs) : ℚ) / 65536), r1) := by
  unfold Reader.read_fixed_point_16_16
  rw [h, okBind]
  rfl

/-- Evaluation helper: a successful 2-byte read determines the 8.8 decode
result. -/
theorem fpEval88 (r r1 : Reader) (bs : List Nat)
    (h : Reader.readBytes r 2 = Except.ok (bs, r1)) :
    Reader.read_fixed_point_8_8 r =
      Except.ok (((f32ofNat (Reader.be bs) : ℚ) / 256), r1) := by
  unfold Reader.read_fixed_point_8_8
  rw [h, okBind]
  rfl

/-- Evaluation helper: the binary logarithm of `0xFFFFFFFF` is 31. -/
theorem log2_ffffffff : Nat.log2 4294967295 = 31 := by
  rw [Nat.log2_eq_log_two]
  exact Nat.log_eq_of_pow_le_of_lt_pow (by norm_num) (by norm_num)

/-- Evaluation helper: the `u32`-to-`f32` conversion rounds `0xFFFFFFFF` up
to `2 ^ 32`. -/
theorem f32ofNat_ffffffff : f32ofNat 4294967295 = 4294967296 := by
  unfold f32ofNat
  rw [if_neg (by norm_num)]
  dsimp only
  rw [log2_ffffffff]
  norm_num

/-- Claim C9, counterexample.  The 16.16 decoder does not return the input
value divided by 65536 for every 32-bit input: at raw input `0xFFFFFFFF` the
`u32`-to-`f32` conversion rounds to `2 ^ 32`, so the code returns exactly
65536 while `4294967295 / 65536` is strictly smaller. -/
theorem claim_C9_fixed_point_counterexample :
    Reader.read_fixed_point_16_16 (Reader.new [255, 255, 255, 255]) =
      Except.ok ((65536 : ℚ), ⟨[255, 255, 255, 255], 4⟩) ∧
    (65536 : ℚ) ≠ (4294967295 : ℚ) / 65536 := by
  constructor
  · have h := fpEval1616 (Reader.new [255, 255, 255, 255])
      ⟨[255, 255, 255, 255], 4⟩ [255, 255, 255, 255] rfl
    rw [h, show Reader.be [255, 255, 255, 255] = 4294967295 from rfl, f32ofNat_ffffffff]
    norm_num
  · norm_num

/-- Claim C9 as amended.  Both decoders read big-endian and advance the
cursor by exactly the bytes they consume (4 and 2); the 16.16 decoder
returns the round-to-nearest-even 24-bit-significand conversion of the input
divided by 65536 — the identity below `2 ^ 24`, so `0x00018000 → 3/2` and
`0x00010000 → 1` hold exactly — and the 8.8 decoder returns the input
divided by 256 exactly for every 2-byte input (`0x0180 → 3/2`). -/
theorem claim_C9_fixed_point :
    (∀ (r r1 : Reader) (bs : List Nat) (n : Nat),
      Reader.readBytes r n = Except.ok (bs, r1) → r1 = ⟨r.buf, r.pos + n⟩) ∧
    (∀ (r r1 : Reader) (bs : List Nat),
      Reader.readBytes r 4 = Except.ok (bs, r1) →
      Reader.read_fixed_point_16_16 r =
        Except.ok (((f32ofNat (Reader.be bs) : ℚ) / 65536), r1)) ∧
    (∀ n, n < 2 ^ 24 → f32ofNat n = n) ∧
    (∀ (r r1 : Reader) (bs : List Nat),
      Reader.readBytes r 2 = Except.ok (bs, r1) → (∀ b ∈ bs, b < 256) →
      bs.length = 2 →
      Reader.read_fixed_point_8_8 r = Except.ok (((Reader.be bs : ℚ) / 256), r1)) ∧
    Reader.read_fixed_point_16_16 (Reader.new [0, 1, 128, 0]) =
      Except.ok ((3 / 2 : ℚ), ⟨[0, 1, 128, 0], 4⟩) ∧
    Reader.read_fixed_point_16_16 (Reader.new [0, 1, 0, 0]) =
      Except.ok ((1 : ℚ), ⟨[0, 1, 0, 0], 4⟩) ∧
    Reader.read_fixed_point_8_8 (Reader.new [1, 128]) =
      Except.ok ((3 / 2 : ℚ), ⟨[1, 128], 2⟩) := by
  refine ⟨?_, fpEval1616, ?_, ?_, ?_, ?_, ?_⟩
  · intro r r1 bs n h
    unfold Reader.readBytes at h
    by_cases hb : r.pos + n ≤ r.buf.length
    · rw [if_pos hb] at h
      injection h with h2
      exact (congrArg Prod.snd h2).symm
    · rw [if_neg hb] at h
      exact Except.noConfusion h
  · intro n h
    unfold f32ofNat
    rw [if_pos h]
  · intro r r1 bs h hlt hlen
    rw [fpEval88 r r1 bs h]
    have hbe : Reader.be bs < 2 ^ 24 := by
      match bs, hlen with
      | [a, b], _ =>
        have ha : a < 256 := hlt a (by simp)
        have hb : b < 256 := hlt b (by simp)
        show (0 * 256 + a) * 256 + b < 2 ^ 24
        omega
    rw [show f32ofNat (Reader.be bs) = Reader.be bs by unfold f32ofNat; rw [if_pos hbe]]
  · rw [fpEval1616 (Reader.new [0, 1, 128, 0]) ⟨[0, 1, 128, 0], 4⟩ [0, 1, 128, 0] rfl,
      show Reader.be [0, 1, 128, 0] = 98304 from rfl,
      show f32ofNat 98304 = 98304 from rfl]
    norm_num
  · rw [fpEval1616 (Reader.new [0, 1, 0, 0]) ⟨[0, 1, 0, 0], 4⟩ [0, 1, 0, 0] rfl,
      show Reader.be [0, 1, 0, 0] = 65536 from rfl,
      show f32ofNat 65536 = 65536 from rfl]
    norm_num
  · rw [fpEval88 (Reader.new [1, 128]) ⟨[1, 128], 2⟩ [1, 128] rfl,
      show Reader.be [1, 128] = 384 from rfl,
      show f32ofNat 384 = 384 from rfl]
    norm_num

/-- Witness for claim C9: the amended statement applied at the concrete
inputs `0x00018000` (16.16), `98304` (the conversion bound) and `0x0180`
(8.8). -/
theorem claim_C9_fixed_point_witness :
    (⟨[0, 1, 128, 0], 4⟩ : Reader) = ⟨[0, 1, 128, 0], 0 + 4⟩ ∧
    Reader.read_fixed_point_16_16 (Reader.new [0, 1, 128, 0]) =
      Except.ok (((f32ofNat (Reader.be [0, 1, 128, 0]) : ℚ) / 65536), ⟨[0, 1, 128, 0], 4⟩) ∧
    f32ofNat 98304 = 98304 ∧
    Reader.read_fixed_point_8_8 (Reader.new [1, 128]) =
      Except.ok (((Reader.be [1, 128] : ℚ) / 256), ⟨[1, 128], 2⟩) := by
  refine ⟨claim_C9_fixed_point.1 (Reader.new [0, 1, 128, 0]) _ [0, 1, 128, 0] 4 rfl,
    claim_C9_fixed_point.2.1 (Reader.new [0, 1, 128, 0]) _ [0, 1, 128, 0] rfl,
    claim_C9_fixed_point.2.2.1 98304 (by decide),
    claim_C9_fixed_point.2.2.2.1 (Reader.new [1, 128]) _ [1, 128] rfl (by decide) (by decide)⟩

/-- Claim C4 as amended.  The driver post-step lands the cursor exactly at
`box_end` whenever the remaining gap is below `2 ^ 32` and the skip is in
bounds (the remaining count is truncated by the `as u32` cast, so larger
gaps are only partially skipped); a cursor past `box_end` makes the
(debug-mode) subtraction underflow, failing the parse loudly. -/
theorem claim_C4_post_step :
    (∀ (box_end_offset : Nat) (r : Reader),
      r.pos ≤ box_end_offset → box_end_offset ≤ r.buf.length →
      box_end_offset - r.pos < 4294967296 →
      BinParse.skipRemaining box_end_offset r = Except.ok ⟨r.buf, box_end_offset⟩) ∧
    (∀ (box_end_offset : Nat) (r : Reader),
      box_end_offset < r.pos →
      BinParse.skipRemaining box_end_offset r =
        Except.error "attempt to subtract with overflow") := by
  constructor
  · intro e r h1 h2 h3
    obtain ⟨buf, pos⟩ := r
    dsimp only at h1 h2 h3
    unfold BinParse.skipRemaining checkedSub
    dsimp only [Reader.position]
    rw [if_pos h1, okBind]
    rw [show u32cast (e - pos) = e - pos from Nat.mod_eq_of_lt h3]
    by_cases h0 : e - pos = 0
    · rw [if_neg (by omega)]
      have : pos = e := by omega
      subst this
      rfl
    · rw [if_pos (by omega)]
      unfold Reader.skipE Reader.skip_bytes
      dsimp only
      rw [if_neg (by omega)]
      have : pos + (e - pos) = e := by omega
      rw [this]
  · intro e r h
    obtain ⟨buf, pos⟩ := r
    dsimp only at h
    unfold BinParse.skipRemaining checkedSub
    dsimp only [Reader.position]
    rw [if_neg (by omega), errBind]

/-- Witness for claim C4: the post-step applied at a concrete in-bounds gap
(lands exactly at the box end) and at a concrete overrun (fails). -/
theorem claim_C4_post_step_witness :
    BinParse.skipRemaining 3 ⟨[9, 9, 9, 9], 1⟩ = Except.ok ⟨[9, 9, 9, 9], 3⟩ ∧
    BinParse.skipRemaining 1 ⟨[9, 9, 9, 9], 3⟩ =
      Except.error "attempt to subtract with overflow" :=
  ⟨claim_C4_post_step.1 3 ⟨[9, 9, 9, 9], 1⟩ (by decide) (by decide) (by decide),
   claim_C4_post_step.2 1 ⟨[9, 9, 9, 9], 3⟩ (by decide)⟩

/-- Claim C4, counterexample.  A box whose declared (large)size makes the
unconsumed remainder exactly `2 ^ 32` defeats the post-step: the `as u32`
cast truncates the remaining count to 0, nothing is skipped, and the parse
ends with the cursor at offset 24 although `box_end = 0 + 4294967320` — the
cursor is left before `box_end`, not exactly at it. -/
theorem claim_C4_counterexample :
    BoxHeader.parse
        (Reader.new [0, 0, 0, 1, 115, 116, 115, 115, 0, 0, 0, 1, 0, 0, 0, 24,
          0, 0, 0, 0, 0, 0, 0, 0]) =
      Except.ok (⟨0, 4294967320, stssTag, 4294967312⟩,
        ⟨[0, 0, 0, 1, 115, 116, 115, 115, 0, 0, 0, 1, 0, 0, 0, 24,
          0, 0, 0, 0, 0, 0, 0, 0], 16⟩) ∧
    BinParse.parse_mp4 100
        [0, 0, 0, 1, 115, 116, 115, 115, 0, 0, 0, 1, 0, 0, 0, 24,
          0, 0, 0, 0, 0, 0, 0, 0] =
      Except.ok
        ⟨[0, 0, 0, 1, 115, 116, 115, 115, 0, 0, 0, 1, 0, 0, 0, 24,
          0, 0, 0, 0, 0, 0, 0, 0], 24⟩ ∧
    (24 : Nat) ≠ 0 + 4294967320 :=
  ⟨rfl, rfl, by decide⟩

/-- Claim C7, counterexample.  Not every 4-byte type tag read from a box
header survives invalid UTF-8: the legacy parser (src/parser.rs) reads the
tag with the strict `Reader::read_string`, so a box whose tag starts with
the raw `0xA9` copyright byte makes the parse fail instead of decoding the
tag one code point per byte. -/
theorem claim_C7_tag_fallback_counterexample :
    Legacy.parse_box 1 HandleUnknown.panic (Reader.new [0, 0, 0, 8, 169, 116, 111, 111]) =
      Except.error "invalid utf-8 sequence" := rfl

/-- Claim C7 as amended.  The structured header decoder `BoxHeader::parse`
(src/boxes.rs) decodes a valid-UTF-8 tag as that UTF-8 string and otherwise
decodes each of the 4 raw bytes as one code point (Latin-1 style), so the
`0xA9` copyright glyph decodes there without failing; the legacy parser
(src/parser.rs) instead reads the tag with the strict UTF-8 `read_string`,
which fails on such bytes. -/
theorem claim_C7_tag_fallback :
    (∀ (bs cps : List Nat), utf8Decode bs = some cps → tagDecode bs = cps) ∧
    (∀ (bs : List Nat), utf8Decode bs = none → tagDecode bs = bs) ∧
    BoxHeader.parse (Reader.new [0, 0, 0, 8, 169, 116, 111, 111]) =
      Except.ok (⟨0, 8, [169, 116, 111, 111], 0⟩, ⟨[0, 0, 0, 8, 169, 116, 111, 111], 8⟩) ∧
    (∀ (r r1 : Reader) (bs : List Nat) (n : Nat),
      Reader.readBytes r n = Except.ok (bs, r1) → utf8Decode bs = none →
      Reader.read_string r n = Except.error "invalid utf-8 sequence") := by
  refine ⟨?_, ?_, by rfl, ?_⟩
  · intro bs cps h
    unfold tagDecode
    rw [h]
  · intro bs h
    unfold tagDecode
    rw [h]
  · intro r r1 bs n h hnone
    unfold Reader.read_string
    rw [h, okBind]
    dsimp only
    rw [hnone]

/-- Witness for claim C7: the decode branches applied at the ASCII tag
`tool` (valid UTF-8) and at the `0xA9`-led tag (invalid UTF-8, decoded
byte-per-byte by the fallback, rejected by the strict read). -/
theorem claim_C7_tag_fallback_witness :
    tagDecode [116, 111, 111, 108] = [116, 111, 111, 108] ∧
    tagDecode [169, 116, 111, 111] = [169, 116, 111, 111] ∧
    Reader.read_string (Reader.new [169, 116, 111, 111]) 4 =
      Except.error "invalid utf-8 sequence" :=
  ⟨claim_C7_tag_fallback.1 [116, 111, 111, 108] [116, 111, 111, 108] rfl,
   claim_C7_tag_fallback.2.1 [169, 116, 111, 111] rfl,
   claim_C7_tag_fallback.2.2.2 (Reader.new [169, 116, 111, 111])
     ⟨[169, 116, 111, 111], 4⟩ [169, 116, 111, 111] 4 rfl rfl⟩

/-- The fallback arm of the legacy `parse_box`: a box whose decoded tag
matches none of the 34 known tags reaches the `handle_unknown` match —
skipped (consuming the truncated inner size, with the truncated-box panic on
a failed skip) under `Skip`, the unhandled-box `todo!` under `Panic`. -/
theorem legacy_unknown_fallback (fuel : Nat) (hu : HandleUnknown) (r r1 r2 : Reader)
    (sz : Nat) (tagC : List Nat)
    (h1 : Reader.read_u32 r = Except.ok (sz, r1))
    (h2 : Reader.read_string r1 4 = Except.ok (tagC, r2))
    (h0 : sz ≠ 0) (hne1 : sz ≠ 1) (hge : 8 ≤ sz)
    (hmem : tagC ∉ legacyKnownTags) :
    Legacy.parse_box (fuel + 1) hu r =
      (match hu with
       | HandleUnknown.skip =>
         match r2.skip_bytes (u32cast (sz - 8)) with
         | (Except.ok _, r4) => Except.ok r4
         | (Except.error e, _) =>
           Except.error ("Truncated '" ++ cpsToString tagC ++ "' box: " ++ e)
       | HandleUnknown.panic =>
         Except.error ("not yet implemented: Unhandled box: " ++ cpsToString tagC ++
           " (inner size: " ++ toString (sz - 8) ++ ")")) := by
  simp only [legacyKnownTags, List.mem_cons, List.not_mem_nil, or_false, not_or] at hmem
  obtain ⟨n1, n2, n3, n4, n5, n6, n7, n8, n9, n10, n11, n12, n13, n14, n15, n16, n17,
    n18, n19, n20, n21, n22, n23, n24, n25, n26, n27, n28, n29, n30, n31, n32, n33,
    n34⟩ := hmem
  unfold Legacy.parse_box
  rw [h1, okBind]
  dsimp only
  rw [h2, okBind]
  dsimp only
  rw [if_neg hne1, if_neg h0, pureBind]
  dsimp only
  rw [if_neg (by omega)]
  rw [if_neg n1, if_neg n2, if_neg n3, if_neg n4, if_neg n5, if_neg n6, if_neg n7,
    if_neg n8, if_neg n9, if_neg n10, if_neg n11, if_neg n12, if_neg n13, if_neg n14,
    if_neg n15, if_neg n16, if_neg n17, if_neg n18, if_neg n19, if_neg n20,
    if_neg (show ¬(tagC = avc1Tag ∨ tagC = mp4aTag) from not_or.mpr ⟨n21, n22⟩),
    if_neg n23, if_neg n24, if_neg n25, if_neg n26, if_neg n27, if_neg n28,
    if_neg n29, if_neg n30, if_neg n31, if_neg n32, if_neg n33, if_neg n34]
  cases hu
  · dsimp only
    rcases r2.skip_bytes (u32cast (sz - 8)) with ⟨res, r4⟩
    cases res <;> rfl
  · rfl

/-- One unfolding of the legacy counted child loop at entry count 1. -/
theorem countLoop_one (fuel : Nat) (hu : HandleUnknown) (r : Reader) :
    Legacy.countLoop (fuel + 1) hu 1 r =
      Legacy.parse_box fuel hu r >>= fun r1 => Legacy.countLoop fuel hu 0 r1 := rfl

/-- The legacy counted child loop at entry count 0 consumes nothing. -/
theorem countLoop_zero (fuel : Nat) (hu : HandleUnknown) (r : Reader) :
    Legacy.countLoop (fuel + 1) hu 0 r = Except.ok r := rfl

/-- One unfolding of the legacy container child loop. -/
theorem boxLoop_step (fuel : Nat) (hu : HandleUnknown) (endOff : Nat) (r : Reader) :
    Legacy.boxLoop (fuel + 1) hu endOff r =
      if r.position < endOff then
        Legacy.parse_box fuel hu r >>= fun r1 => Legacy.boxLoop fuel hu endOff r1
      else pure r := rfl

/-- The legacy `stsd` arm parses its declared entries as boxes under the
`Skip` policy: with a single entry whose tag is unknown, the entry's
(truncated) declared inner size is skipped and `parse_box` returns
successfully with the cursor right after the entry. -/
theorem legacy_stsd_skip (fuel : Nat) (hu : HandleUnknown)
    (r r1 r2 r4 r5 r6 rA rB : Reader) (szS vers szC : Nat) (flags tagC : List Nat)
    (h1 : Reader.read_u32 r = Except.ok (szS, r1))
    (h2 : Reader.read_string r1 4 = Except.ok (stsdTag, r2))
    (h0 : szS ≠ 0) (hne1 : szS ≠ 1) (hge : 8 ≤ szS)
    (h3 : Reader.read_u8 r2 = Except.ok (vers, r4))
    (h4 : Reader.readBytes r4 3 = Except.ok (flags, r5))
    (h5 : Reader.read_u32 r5 = Except.ok (1, r6))
    (h6 : Reader.read_u32 r6 = Except.ok (szC, rA))
    (h7 : Reader.read_string rA 4 = Except.ok (tagC, rB))
    (hC0 : szC ≠ 0) (hCne1 : szC ≠ 1) (hCge : 8 ≤ szC)
    (hCmem : tagC ∉ legacyKnownTags)
    (hbound : rB.pos + u32cast (szC - 8) ≤ rB.buf.length) :
    Legacy.parse_box (fuel + 3) hu r =
      Except.ok ⟨rB.buf, rB.pos + u32cast (szC - 8)⟩ := by
  rw [show fuel + 3 = (fuel + 2) + 1 from rfl]
  unfold Legacy.parse_box
  rw [h1, okBind]
  dsimp only
  rw [h2, okBind]
  dsimp only
  rw [if_neg hne1, if_neg h0, pureBind]
  dsimp only
  rw [if_neg (by omega)]
  rw [if_neg (show ¬(stsdTag = ftypTag) by decide),
    if_neg (show ¬(stsdTag = freeTag) by decide),
    if_neg (show ¬(stsdTag = mdatTag) by decide),
    if_neg (show ¬(stsdTag = moovTag) by decide),
    if_neg (show ¬(stsdTag = mvhdTag) by decide),
    if_neg (show ¬(stsdTag = trakTag) by decide),
    if_neg (show ¬(stsdTag = tkhdTag) by decide),
    if_neg (show ¬(stsdTag = edtsTag) by decide),
    if_neg (show ¬(stsdTag = elstTag) by decide),
    if_neg (show ¬(stsdTag = mdiaTag) by decide),
    if_neg (show ¬(stsdTag = mdhdTag) by decide),
    if_neg (show ¬(stsdTag = hdlrTag) by decide),
    if_neg (show ¬(stsdTag = minfTag) by decide),
    if_neg (show ¬(stsdTag = vmhdTag) by decide),
    if_neg (show ¬(stsdTag = smhdTag) by decide),
    if_neg (show ¬(stsdTag = dinfTag) by decide),
    if_neg (show ¬(stsdTag = drefTag) by decide),
    if_neg (show ¬(stsdTag = urlTag) by decide),
    if_neg (show ¬(stsdTag = stblTag) by decide),
    if_pos (rfl : stsdTag = stsdTag)]
  rw [h3, okBind]
  dsimp only
  rw [h4, okBind]
  dsimp only
  rw [h5, okBind]
  dsimp only
  rw [show fuel + 2 = (fuel + 1) + 1 from rfl, countLoop_one (fuel + 1) HandleUnknown.skip r6]
  rw [legacy_unknown_fallback fuel HandleUnknown.skip r6 rA rB szC tagC h6 h7
    hC0 hCne1 hCge hCmem]
  dsimp only
  rw [show rB.skip_bytes (u32cast (szC - 8)) =
      (Except.ok (), ⟨rB.buf, rB.pos + u32cast (szC - 8)⟩) from by
    unfold Reader.skip_bytes
    dsimp only
    rw [if_neg (by omega)]]
  dsimp only
  rw [okBind, countLoop_zero]

/-- `SampleDescriptionBox::parse_entry` rejects every tag other than `mp4a`
and `avc1` with the unhandled-entry panic; no reader state is produced, so
nothing is skipped. -/
theorem stsd_entry_unhandled (b : SampleDescriptionBox) (r r1 : Reader) (hdr : BoxHeader)
    (h : BoxHeader.parse r = Except.ok (hdr, r1))
    (hm : hdr.box_type ≠ mp4aTag) (ha : hdr.box_type ≠ avc1Tag) :
    b.parse_entry r =
      Except.error ("Unhandled sample description entry: " ++ cpsToString hdr.box_type) := by
  unfold SampleDescriptionBox.parse_entry
  rw [h, okBind]
  dsimp only
  rw [if_neg hm, if_neg ha]

/-- `MetadataItemList::parse_entry` rejects every tag other than `©too`
with the unhandled-item `todo!`; no reader state is produced, so nothing is
skipped. -/
theorem metadata_entry_unhandled (r r1 : Reader) (hdr : BoxHeader)
    (h : BoxHeader.parse r = Except.ok (hdr, r1))
    (ht : hdr.box_type ≠ tooTag) :
    MetadataItemList.parse_entry r =
      Except.error ("not yet implemented: Handle quicktime metadata item entry: " ++
        cpsToString hdr.box_type) := by
  unfold MetadataItemList.parse_entry
  rw [h, okBind]
  dsimp only
  rw [if_neg ht]

/-- Claim C3, counterexample.  Parsing a sample-description entry with an
unknown tag does not always fail: in the legacy parser (src/parser.rs) the
`stsd` arm parses entries as boxes under the `Skip` policy, so an `stsd` box
with one entry tagged `zzzz` (declared length 10) parses successfully — the
entry's declared length is skipped and the cursor ends at the box end. -/
theorem claim_C3_entry_counterexample :
    Legacy.parse_mp4 100
        [0, 0, 0, 26, 115, 116, 115, 100, 0, 0, 0, 0, 0, 0, 0, 1,
          0, 0, 0, 10, 122, 122, 122, 122, 7, 8] =
      Except.ok
        ⟨[0, 0, 0, 26, 115, 116, 115, 100, 0, 0, 0, 0, 0, 0, 0, 1,
          0, 0, 0, 10, 122, 122, 122, 122, 7, 8], 26⟩ := rfl

/-- Claim C3 as amended.  The structured entry parsers fail on unknown tags
and never fall back to skipping: `SampleDescriptionBox::parse_entry` panics
on any tag other than `mp4a`/`avc1` and `MetadataItemList::parse_entry` on
any tag other than `©too`.  The legacy parser's `stsd` arm instead parses
entries as boxes under the `Skip` policy, skipping an unknown entry's
declared length and continuing. -/
theorem claim_C3_entry_errors :
    (∀ (b : SampleDescriptionBox) (r r1 : Reader) (hdr : BoxHeader),
      BoxHeader.parse r = Except.ok (hdr, r1) →
      hdr.box_type ≠ mp4aTag → hdr.box_type ≠ avc1Tag →
      b.parse_entry r =
        Except.error ("Unhandled sample description entry: " ++ cpsToString hdr.box_type)) ∧
    (∀ (r r1 : Reader) (hdr : BoxHeader),
      BoxHeader.parse r = Except.ok (hdr, r1) →
      hdr.box_type ≠ tooTag →
      MetadataItemList.parse_entry r =
        Except.error ("not yet implemented: Handle quicktime metadata item entry: " ++
          cpsToString hdr.box_type)) ∧
    (∀ (fuel : Nat) (hu : HandleUnknown)
      (r r1 r2 r4 r5 r6 rA rB : Reader) (szS vers szC : Nat) (flags tagC : List Nat),
      Reader.read_u32 r = Except.ok (szS, r1) →
      Reader.read_string r1 4 = Except.ok (stsdTag, r2) →
      szS ≠ 0 → szS ≠ 1 → 8 ≤ szS →
      Reader.read_u8 r2 = Except.ok (vers, r4) →
      Reader.readBytes r4 3 = Except.ok (flags, r5) →
      Reader.read_u32 r5 = Except.ok (1, r6) →
      Reader.read_u32 r6 = Except.ok (szC, rA) →
      Reader.read_string rA 4 = Except.ok (tagC, rB) →
      szC ≠ 0 → szC ≠ 1 → 8 ≤ szC →
      tagC ∉ legacyKnownTags →
      rB.pos + u32cast (szC - 8) ≤ rB.buf.length →
      Legacy.parse_box (fuel + 3) hu r =
        Except.ok ⟨rB.buf, rB.pos + u32cast (szC - 8)⟩) :=
  ⟨stsd_entry_unhandled,
   metadata_entry_unhandled,
   fun fuel hu r r1 r2 r4 r5 r6 rA rB szS vers szC flags tagC
     h1 h2 h0 hne1 hge h3 h4 h5 h6 h7 hC0 hCne1 hCge hCmem hbound =>
   legacy_stsd_skip fuel hu r r1 r2 r4 r5 r6 rA rB szS vers szC flags tagC
     h1 h2 h0 hne1 hge h3 h4 h5 h6 h7 hC0 hCne1 hCge hCmem hbound⟩

/-- Witness for claim C3 at concrete inputs: an entry tagged `zzzz` makes
`parse_entry` fail with the unhandled-entry message, an item tagged `xyzw`
makes `MetadataItemList::parse_entry` fail, and the legacy parser skips the
`zzzz` entry inside a concrete `stsd` box, ending at offset 26. -/
theorem claim_C3_entry_errors_witness :
    SampleDescriptionBox.parse_entry ⟨1⟩ (Reader.new [0, 0, 0, 10, 122, 122, 122, 122, 7, 8]) =
      Except.error ("Unhandled sample description entry: " ++
        cpsToString [122, 122, 122, 122]) ∧
    MetadataItemList.parse_entry (Reader.new [0, 0, 0, 10, 120, 121, 122, 119, 1, 2]) =
      Except.error ("not yet implemented: Handle quicktime metadata item entry: " ++
        cpsToString [120, 121, 122, 119]) ∧
    Legacy.parse_box 3 HandleUnknown.panic
        (Reader.new [0, 0, 0, 26, 115, 116, 115, 100, 0, 0, 0, 0, 0, 0, 0, 1,
          0, 0, 0, 10, 122, 122, 122, 122, 7, 8]) =
      Except.ok
        ⟨[0, 0, 0, 26, 115, 116, 115, 100, 0, 0, 0, 0, 0, 0, 0, 1,
          0, 0, 0, 10, 122, 122, 122, 122, 7, 8], 24 + u32cast (10 - 8)⟩ :=
  ⟨claim_C3_entry_errors.1 ⟨1⟩ (Reader.new [0, 0, 0, 10, 122, 122, 122, 122, 7, 8])
      ⟨[0, 0, 0, 10, 122, 122, 122, 122, 7, 8], 8⟩ ⟨0, 10, [122, 122, 122, 122], 2⟩ rfl
      (by decide) (by decide),
   claim_C3_entry_errors.2.1 (Reader.new [0, 0, 0, 10, 120, 121, 122, 119, 1, 2])
      ⟨[0, 0, 0, 10, 120, 121, 122, 119, 1, 2], 8⟩ ⟨0, 10, [120, 121, 122, 119], 2⟩ rfl
      (by decide),
   claim_C3_entry_errors.2.2 0 HandleUnknown.panic
      (Reader.new [0, 0, 0, 26, 115, 116, 115, 100, 0, 0, 0, 0, 0, 0, 0, 1,
        0, 0, 0, 10, 122, 122, 122, 122, 7, 8])
      ⟨[0, 0, 0, 26, 115, 116, 115, 100, 0, 0, 0, 0, 0, 0, 0, 1,
        0, 0, 0, 10, 122, 122, 122, 122, 7, 8], 4⟩
      ⟨[0, 0, 0, 26, 115, 116, 115, 100, 0, 0, 0, 0, 0, 0, 0, 1,
        0, 0, 0, 10, 122, 122, 122, 122, 7, 8], 8⟩
      ⟨[0, 0, 0, 26, 115, 116, 115, 100, 0, 0, 0, 0, 0, 0, 0, 1,
        0, 0, 0, 10, 122, 122, 122, 122, 7, 8], 9⟩
      ⟨[0, 0, 0, 26, 115, 116, 115, 100, 0, 0, 0, 0, 0, 0, 0, 1,
        0, 0, 0, 10, 122, 122, 122, 122, 7, 8], 12⟩
      ⟨[0, 0, 0, 26, 115, 116, 115, 100, 0, 0, 0, 0, 0, 0, 0, 1,
        0, 0, 0, 10, 122, 122, 122, 122, 7, 8], 16⟩
      ⟨[0, 0, 0, 26, 115, 116, 115, 100, 0, 0, 0, 0, 0, 0, 0, 1,
        0, 0, 0, 10, 122, 122, 122, 122, 7, 8], 20⟩
      ⟨[0, 0, 0, 26, 115, 116, 115, 100, 0, 0, 0, 0, 0, 0, 0, 1,
        0, 0, 0, 10, 122, 122, 122, 122, 7, 8], 24⟩
      26 0 10 [0, 0, 0] [122, 122, 122, 122]
      rfl rfl (by decide) (by decide) (by decide) rfl rfl rfl rfl rfl
      (by decide) (by decide) (by decide) (by decide) (by decide)⟩

/-- An unrecognized tag makes `Mp4Box::parse_contents` yield `None`,
consuming nothing. -/
theorem parse_contents_unknown (r : Reader) (t : List Nat) (inner : Nat)
    (h : t ∉ newKnownTags) :
    Mp4Box.parse_contents r t inner = Except.ok (none, r) := by
  simp only [newKnownTags, List.mem_cons, List.not_mem_nil, or_false, not_or] at h
  obtain ⟨n1, n2, n3, n4, n5, n6, n7, n8, n9, n10, n11, n12, n13, n14, n15, n16, n17,
    n18, n19, n20, n21, n22, n23, n24, n25, n26, n27, n28, n29, n30, n31, n32, n33,
    n34, n35, n36, n37⟩ := h
  unfold Mp4Box.parse_contents
  rw [if_neg n1, if_neg n2, if_neg n3, if_neg n4, if_neg n5, if_neg n6, if_neg n7,
    if_neg n8, if_neg n9, if_neg n10, if_neg n11, if_neg n12, if_neg n13, if_neg n14,
    if_neg n15, if_neg n16, if_neg n17, if_neg n18, if_neg n19, if_neg n20,
    if_neg n21, if_neg n22, if_neg n23, if_neg n24, if_neg n25, if_neg n26,
    if_neg n27, if_neg n28, if_neg n29, if_neg n30, if_neg n31, if_neg n32,
    if_neg n33, if_neg n34, if_neg n35, if_neg n36, if_neg n37]
  rfl

/-- In the legacy parser, an unrecognized tag directly inside a `moov`
container hits the `Panic` policy: the parse fails with the unhandled-box
message naming the tag and its inner size. -/
theorem legacy_moov_unknown_fails (fuel : Nat) (r r1 r2 rA rB : Reader)
    (szM szC : Nat) (tagC : List Nat)
    (h1 : Reader.read_u32 r = Except.ok (szM, r1))
    (h2 : Reader.read_string r1 4 = Except.ok (moovTag, r2))
    (h0 : szM ≠ 0) (hne1 : szM ≠ 1) (hgt : 8 < szM)
    (h3 : Reader.read_u32 r2 = Except.ok (szC, rA))
    (h4 : Reader.read_string rA 4 = Except.ok (tagC, rB))
    (hC0 : szC ≠ 0) (hCne1 : szC ≠ 1) (hCge : 8 ≤ szC)
    (hCmem : tagC ∉ legacyKnownTags) :
    Legacy.parse_box (fuel + 3) HandleUnknown.panic r =
      Except.error ("not yet implemented: Unhandled box: " ++ cpsToString tagC ++
        " (inner size: " ++ toString (szC - 8) ++ ")") := by
  rw [show fuel + 3 = (fuel + 2) + 1 from rfl]
  unfold Legacy.parse_box
  rw [h1, okBind]
  dsimp only
  rw [h2, okBind]
  dsimp only
  rw [if_neg hne1, if_neg h0, pureBind]
  dsimp only
  rw [if_neg (by omega)]
  rw [if_neg (show ¬(moovTag = ftypTag) by decide),
    if_neg (show ¬(moovTag = freeTag) by decide),
    if_neg (show ¬(moovTag = mdatTag) by decide),
    if_pos (rfl : moovTag = moovTag)]
  rw [show fuel + 2 = (fuel + 1) + 1 from rfl,
    boxLoop_step (fuel + 1) HandleUnknown.panic _ r2]
  rw [if_pos (show r2.position < r2.position + (szM - 8) by
    simp only [Reader.position]; omega)]
  rw [legacy_unknown_fallback fuel HandleUnknown.panic r2 rA rB szC tagC h3 h4
    hC0 hCne1 hCge hCmem]
  dsimp only
  rw [errBind]

/-- In the legacy parser, an unrecognized tag directly inside a `udta`
container is skipped: exactly the (truncated) declared inner size of the
unknown child is consumed and parsing continues, ending cleanly at the
container's end offset. -/
theorem legacy_udta_unknown_skips (fuel : Nat) (hu : HandleUnknown)
    (r r1 r2 rA rB : Reader) (szU szC : Nat) (tagC : List Nat)
    (h1 : Reader.read_u32 r = Except.ok (szU, r1))
    (h2 : Reader.read_string r1 4 = Except.ok (udtaTag, r2))
    (h0 : szU ≠ 0) (hne1 : szU ≠ 1) (hgt : 8 < szU)
    (h3 : Reader.read_u32 r2 = Except.ok (szC, rA))
    (h4 : Reader.read_string rA 4 = Except.ok (tagC, rB))
    (hC0 : szC ≠ 0) (hCne1 : szC ≠ 1) (hCge : 8 ≤ szC)
    (hCmem : tagC ∉ legacyKnownTags)
    (hbound : rB.pos + u32cast (szC - 8) ≤ rB.buf.length)
    (hfill : rB.pos + u32cast (szC - 8) = r2.pos + (szU - 8)) :
    Legacy.parse_box (fuel + 3) hu r = Except.ok ⟨rB.buf, r2.pos + (szU - 8)⟩ := by
  rw [show fuel + 3 = (fuel + 2) + 1 from rfl]
  unfold Legacy.parse_box
  rw [h1, okBind]
  dsimp only
  rw [h2, okBind]
  dsimp only
  rw [if_neg hne1, if_neg h0, pureBind]
  dsimp only
  rw [if_neg (by omega)]
  rw [if_neg (show ¬(udtaTag = ftypTag) by decide),
    if_neg (show ¬(udtaTag = freeTag) by decide),
    if_neg (show ¬(udtaTag = mdatTag) by decide),
    if_neg (show ¬(udtaTag = moovTag) by decide),
    if_neg (show ¬(udtaTag = mvhdTag) by decide),
    if_neg (show ¬(udtaTag = trakTag) by decide),
    if_neg (show ¬(udtaTag = tkhdTag) by decide),
    if_neg (show ¬(udtaTag = edtsTag) by decide),
    if_neg (show ¬(udtaTag = elstTag) by decide),
    if_neg (show ¬(udtaTag = mdiaTag) by decide),
    if_neg (show ¬(udtaTag = mdhdTag) by decide),
    if_neg (show ¬(udtaTag = hdlrTag) by decide),
    if_neg (show ¬(udtaTag = minfTag) by decide),
    if_neg (show ¬(udtaTag = vmhdTag) by decide),
    if_neg (show ¬(udtaTag = smhdTag) by decide),
    if_neg (show ¬(udtaTag = dinfTag) by decide),
    if_neg (show ¬(udtaTag = drefTag) by decide),
    if_neg (show ¬(udtaTag = urlTag) by decide),
    if_neg (show ¬(udtaTag = stblTag) by decide),
    if_neg (show ¬(udtaTag = stsdTag) by decide),
    if_neg (show ¬(udtaTag = avc1Tag ∨ udtaTag = mp4aTag) by decide),
    if_neg (show ¬(udtaTag = sttsTag) by decide),
    if_neg (show ¬(udtaTag = stssTag) by decide),
    if_neg (show ¬(udtaTag = cttsTag) by decide),
    if_neg (show ¬(udtaTag = stscTag) by decide),
    if_neg (show ¬(udtaTag = stszTag) by decide),
    if_neg (show ¬(udtaTag = stcoTag) by decide),
    if_neg (show ¬(udtaTag = sgpdTag) by decide),
    if_neg (show ¬(udtaTag = sbgpTag) by decide),
    if_neg (show ¬(udtaTag = sdtpTag) by decide),
    if_pos (rfl : udtaTag = udtaTag)]
  rw [show fuel + 2 = (fuel + 1) + 1 from rfl,
    boxLoop_step (fuel + 1) HandleUnknown.skip _ r2]
  rw [if_pos (show r2.position < r2.position + (szU - 8) by
    simp only [Reader.position]; omega)]
  rw [legacy_unknown_fallback fuel HandleUnknown.skip r2 rA rB szC tagC h3 h4
    hC0 hCne1 hCge hCmem]
  dsimp only
  rw [show rB.skip_bytes (u32cast (szC - 8)) =
      (Except.ok (), ⟨rB.buf, rB.pos + u32cast (szC - 8)⟩) from by
    unfold Reader.skip_bytes
    dsimp only
    rw [if_neg (by omega)]]
  dsimp only
  rw [okBind, boxLoop_step fuel HandleUnknown.skip _ _]
  rw [if_neg (show ¬((⟨rB.buf, rB.pos + u32cast (szC - 8)⟩ : Reader).position <
      r2.position + (szU - 8)) by simp only [Reader.position]; omega)]
  rw [show rB.pos + u32cast (szC - 8) = r2.pos + (szU - 8) from hfill]
  rfl

/-- In the structured driver, an unrecognized tag under the `Panic` policy
(the top level) fails with the unhandled-box message naming the tag and its
inner size. -/
theorem binparse_unknown_fails (fuel end_offset : Nat) (r r1 : Reader) (hdr : BoxHeader)
    (hpos : r.position < end_offset)
    (hp : BoxHeader.parse r = Except.ok (hdr, r1))
    (hmem : hdr.box_type ∉ newKnownTags) :
    BinParse.parseLoop (fuel + 1) HandleUnknown.panic end_offset r =
      Except.error ("not yet implemented: Unhandled box: " ++ cpsToString hdr.box_type ++
        " (inner size: " ++ toString hdr.inner_size ++ ")") := by
  unfold BinParse.parseLoop
  rw [if_pos hpos, hp, okBind]
  dsimp only
  rw [parse_contents_unknown r1 hdr.box_type hdr.inner_size hmem, okBind]

/-- In the structured driver, every container — the movie box included —
recurses with the `Skip` policy, so an unrecognized direct child of `moov`
is skipped (consuming its truncated inner size) and the parse succeeds. -/
theorem binparse_moov_unknown_skipped (fuel end_offset : Nat) (r r1 r2 : Reader)
    (hdrM hdrC : BoxHeader)
    (hpos : r.position < end_offset)
    (hpM : BoxHeader.parse r = Except.ok (hdrM, r1))
    (hM : hdrM.box_type = moovTag)
    (hpos1 : r1.position < r.position + hdrM.box_size)
    (hpC : BoxHeader.parse r1 = Except.ok (hdrC, r2))
    (hCmem : hdrC.box_type ∉ newKnownTags)
    (hbound : r2.pos + u32cast hdrC.inner_size ≤ r2.buf.length)
    (hfill : r2.pos + u32cast hdrC.inner_size = r.position + hdrM.box_size)
    (hend : r.position + hdrM.box_size = end_offset) :
    BinParse.parseLoop (fuel + 3) HandleUnknown.panic end_offset r =
      Except.ok ⟨r2.buf, end_offset⟩ := by
  simp only [Reader.position] at hpos hpos1 hfill hend
  have hinner : BinParse.parseLoop (fuel + 1 + 1) HandleUnknown.skip
      (r.pos + hdrM.box_size) r1 =
      Except.ok ⟨r2.buf, r.pos + hdrM.box_size⟩ := by
    unfold BinParse.parseLoop
    dsimp only [Reader.position]
    rw [if_pos hpos1, hpC, okBind]
    dsimp only
    rw [parse_contents_unknown r2 hdrC.box_type hdrC.inner_size hCmem, okBind]
    dsimp only
    rw [show r2.skip_bytes (u32cast hdrC.inner_size) =
        (Except.ok (), ⟨r2.buf, r2.pos + u32cast hdrC.inner_size⟩) from by
      unfold Reader.skip_bytes
      dsimp only
      rw [if_neg (by omega)]]
    dsimp only
    rw [pureBind]
    unfold BinParse.parseLoop
    dsimp only [Reader.position]
    rw [if_neg (show ¬(r2.pos + u32cast hdrC.inner_size < r.pos + hdrM.box_size) by omega)]
    rw [hfill]
    rfl
  rw [show fuel + 3 = (fuel + 2) + 1 from rfl]
  unfold BinParse.parseLoop
  dsimp only [Reader.position]
  rw [if_pos hpos, hpM, okBind]
  dsimp only
  rw [hM]
  rw [show Mp4Box.parse_contents r1 moovTag hdrM.inner_size =
      Except.ok (some (Mp4Box.container "Movie Box (container)"), r1) from rfl, okBind]
  dsimp only
  rw [show fuel + 2 = fuel + 1 + 1 from rfl, hinner, okBind]
  rw [show BinParse.skipRemaining (r.pos + hdrM.box_size)
      ⟨r2.buf, r.pos + hdrM.box_size⟩ = Except.ok ⟨r2.buf, r.pos + hdrM.box_size⟩
    from by
      unfold BinParse.skipRemaining checkedSub
      dsimp only [Reader.position]
      rw [if_pos (le_refl _), okBind]
      rw [show u32cast (r.pos + hdrM.box_size - (r.pos + hdrM.box_size)) = 0 by
        unfold u32cast
        omega]
      rw [if_neg (by omega)]
      rfl]
  rw [okBind]
  unfold BinParse.parseLoop
  dsimp only [Reader.position]
  rw [if_neg (show ¬(r.pos + hdrM.box_size < end_offset) by omega)]
  rw [hend]
  rfl

/-- Claim C2, counterexample.  An unrecognized box that is a direct child
of the movie box does not always make the parse fail: the structured driver
(src/bin/parse.rs) recurses into every container with the `Skip` policy, so
a `moov` box whose only child is tagged `xxxx` parses successfully, the
child's 10 payload bytes being skipped. -/
theorem claim_C2_policy_counterexample :
    BinParse.parse_mp4 100
        [0, 0, 0, 26, 109, 111, 111, 118, 0, 0, 0, 18, 120, 120, 120, 120,
          1, 2, 3, 4, 5, 6, 7, 8, 9, 10] =
      Except.ok
        ⟨[0, 0, 0, 26, 109, 111, 111, 118, 0, 0, 0, 18, 120, 120, 120, 120,
          1, 2, 3, 4, 5, 6, 7, 8, 9, 10], 26⟩ := rfl

/-- Claim C2 as amended.  In the legacy parser (src/parser.rs) an
unrecognized tag at the top level or directly under a standard container
such as the movie box fails with the unhandled-box error naming the tag and
its inner size, while under the user-data container it is skipped with
exactly the (truncated) declared inner size consumed, parsing continuing at
the correct next-sibling offset.  In the structured driver
(src/bin/parse.rs) the fail policy applies only at the top level: inside
every container, the movie box included, unknown boxes are skipped. -/
theorem claim_C2_unknown_policy :
    (∀ (fuel : Nat) (r r1 r2 rA rB : Reader) (szM szC : Nat) (tagC : List Nat),
      Reader.read_u32 r = Except.ok (szM, r1) →
      Reader.read_string r1 4 = Except.ok (moovTag, r2) →
      szM ≠ 0 → szM ≠ 1 → 8 < szM →
      Reader.read_u32 r2 = Except.ok (szC, rA) →
      Reader.read_string rA 4 = Except.ok (tagC, rB) →
      szC ≠ 0 → szC ≠ 1 → 8 ≤ szC →
      tagC ∉ legacyKnownTags →
      Legacy.parse_box (fuel + 3) HandleUnknown.panic r =
        Except.error ("not yet implemented: Unhandled box: " ++ cpsToString tagC ++
          " (inner size: " ++ toString (szC - 8) ++ ")")) ∧
    (∀ (fuel : Nat) (hu : HandleUnknown) (r r1 r2 rA rB : Reader)
      (szU szC : Nat) (tagC : List Nat),
      Reader.read_u32 r = Except.ok (szU, r1) →
      Reader.read_string r1 4 = Except.ok (udtaTag, r2) →
      szU ≠ 0 → szU ≠ 1 → 8 < szU →
      Reader.read_u32 r2 = Except.ok (szC, rA) →
      Reader.read_string rA 4 = Except.ok (tagC, rB) →
      szC ≠ 0 → szC ≠ 1 → 8 ≤ szC →
      tagC ∉ legacyKnownTags →
      rB.pos + u32cast (szC - 8) ≤ rB.buf.length →
      rB.pos + u32cast (szC - 8) = r2.pos + (szU - 8) →
      Legacy.parse_box (fuel + 3) hu r = Except.ok ⟨rB.buf, r2.pos + (szU - 8)⟩) ∧
    (∀ (fuel end_offset : Nat) (r r1 : Reader) (hdr : BoxHeader),
      r.position < end_offset →
      BoxHeader.parse r = Except.ok (hdr, r1) →
      hdr.box_type ∉ newKnownTags →
      BinParse.parseLoop (fuel + 1) HandleUnknown.panic end_offset r =
        Except.error ("not yet implemented: Unhandled box: " ++ cpsToString hdr.box_type ++
          " (inner size: " ++ toString hdr.inner_size ++ ")")) ∧
    (∀ (fuel end_offset : Nat) (r r1 r2 : Reader) (hdrM hdrC : BoxHeader),
      r.position < end_offset →
      BoxHeader.parse r = Except.ok (hdrM, r1) →
      hdrM.box_type = moovTag →
      r1.position < r.position + hdrM.box_size →
      BoxHeader.parse r1 = Except.ok (hdrC, r2) →
      hdrC.box_type ∉ newKnownTags →
      r2.pos + u32cast hdrC.inner_size ≤ r2.buf.length →
      r2.pos + u32cast hdrC.inner_size = r.position + hdrM.box_size →
      r.position + hdrM.box_size = end_offset →
      BinParse.parseLoop (fuel + 3) HandleUnknown.panic end_offset r =
        Except.ok ⟨r2.buf, end_offset⟩) :=
  ⟨fun fuel r r1 r2 rA rB szM szC tagC h1 h2 h0 hne1 hgt h3 h4 hC0 hCne1 hCge hCmem =>
    legacy_moov_unknown_fails fuel r r1 r2 rA rB szM szC tagC h1 h2 h0 hne1 hgt h3 h4
      hC0 hCne1 hCge hCmem,
   fun fuel hu r r1 r2 rA rB szU szC tagC h1 h2 h0 hne1 hgt h3 h4 hC0 hCne1 hCge
      hCmem hbound hfill =>
    legacy_udta_unknown_skips fuel hu r r1 r2 rA rB szU szC tagC h1 h2 h0 hne1 hgt h3
      h4 hC0 hCne1 hCge hCmem hbound hfill,
   fun fuel end_offset r r1 hdr hpos hp hmem =>
    binparse_unknown_fails fuel end_offset r r1 hdr hpos hp hmem,
   fun fuel end_offset r r1 r2 hdrM hdrC hpos hpM hM hpos1 hpC hCmem hbound hfill hend =>
    binparse_moov_unknown_skipped fuel end_offset r r1 r2 hdrM hdrC hpos hpM hM hpos1
      hpC hCmem hbound hfill hend⟩

/-- Witness for claim C2, applying all four policy statements at concrete
26-byte buffers (a `moov` / `udta` box whose only child is tagged `xxxx`)
and at a concrete top-level unknown box. -/
theorem claim_C2_unknown_policy_witness :
    Legacy.parse_box 3 HandleUnknown.panic
        (Reader.new [0, 0, 0, 26, 109, 111, 111, 118, 0, 0, 0, 18, 120, 120, 120, 120,
          1, 2, 3, 4, 5, 6, 7, 8, 9, 10]) =
      Except.error ("not yet implemented: Unhandled box: " ++
        cpsToString [120, 120, 120, 120] ++ " (inner size: " ++ toString (18 - 8) ++ ")") ∧
    Legacy.parse_box 3 HandleUnknown.panic
        (Reader.new [0, 0, 0, 26, 117, 100, 116, 97, 0, 0, 0, 18, 120, 120, 120, 120,
          1, 2, 3, 4, 5, 6, 7, 8, 9, 10]) =
      Except.ok
        ⟨[0, 0, 0, 26, 117, 100, 116, 97, 0, 0, 0, 18, 120, 120, 120, 120,
          1, 2, 3, 4, 5, 6, 7, 8, 9, 10], 8 + (26 - 8)⟩ ∧
    BinParse.parseLoop 1 HandleUnknown.panic 10
        (Reader.new [0, 0, 0, 10, 120, 120, 120, 120, 1, 2]) =
      Except.error ("not yet implemented: Unhandled box: " ++
        cpsToString [120, 120, 120, 120] ++ " (inner size: " ++ toString (2 : Nat) ++ ")") ∧
    BinParse.parseLoop 3 HandleUnknown.panic 26
        (Reader.new [0, 0, 0, 26, 109, 111, 111, 118, 0, 0, 0, 18, 120, 120, 120, 120,
          1, 2, 3, 4, 5, 6, 7, 8, 9, 10]) =
      Except.ok
        ⟨[0, 0, 0, 26, 109, 111, 111, 118, 0, 0, 0, 18, 120, 120, 120, 120,
          1, 2, 3, 4, 5, 6, 7, 8, 9, 10], 26⟩ :=
  ⟨claim_C2_unknown_policy.1 0
      (Reader.new [0, 0, 0, 26, 109, 111, 111, 118, 0, 0, 0, 18, 120, 120, 120, 120,
        1, 2, 3, 4, 5, 6, 7, 8, 9, 10])
      ⟨[0, 0, 0, 26, 109, 111, 111, 118, 0, 0, 0, 18, 120, 120, 120, 120,
        1, 2, 3, 4, 5, 6, 7, 8, 9, 10], 4⟩
      ⟨[0, 0, 0, 26, 109, 111, 111, 118, 0, 0, 0, 18, 120, 120, 120, 120,
        1, 2, 3, 4, 5, 6, 7, 8, 9, 10], 8⟩
      ⟨[0, 0, 0, 26, 109, 111, 111, 118, 0, 0, 0, 18, 120, 120, 120, 120,
        1, 2, 3, 4, 5, 6, 7, 8, 9, 10], 12⟩
      ⟨[0, 0, 0, 26, 109, 111, 111, 118, 0, 0, 0, 18, 120, 120, 120, 120,
        1, 2, 3, 4, 5, 6, 7, 8, 9, 10], 16⟩
      26 18 [120, 120, 120, 120]
      rfl rfl (by decide) (by decide) (by decide) rfl rfl
      (by decide) (by decide) (by decide) (by decide),
   claim_C2_unknown_policy.2.1 0 HandleUnknown.panic
      (Reader.new [0, 0, 0, 26, 117, 100, 116, 97, 0, 0, 0, 18, 120, 120, 120, 120,
        1, 2, 3, 4, 5, 6, 7, 8, 9, 10])
      ⟨[0, 0, 0, 26, 117, 100, 116, 97, 0, 0, 0, 18, 120, 120, 120, 120,
        1, 2, 3, 4, 5, 6, 7, 8, 9, 10], 4⟩
      ⟨[0, 0, 0, 26, 117, 100, 116, 97, 0, 0, 0, 18, 120, 120, 120, 120,
        1, 2, 3, 4, 5, 6, 7, 8, 9, 10], 8⟩
      ⟨[0, 0, 0, 26, 117, 100, 116, 97, 0, 0, 0, 18, 120, 120, 120, 120,
        1, 2, 3, 4, 5, 6, 7, 8, 9, 10], 12⟩
      ⟨[0, 0, 0, 26, 117, 100, 116, 97, 0, 0, 0, 18, 120, 120, 120, 120,
        1, 2, 3, 4, 5, 6, 7, 8, 9, 10], 16⟩
      26 18 [120, 120, 120, 120]
      rfl rfl (by decide) (by decide) (by decide) rfl rfl
      (by decide) (by decide) (by decide) (by decide) (by decide) (by decide),
   claim_C2_unknown_policy.2.2.1 0 10
      (Reader.new [0, 0, 0, 10, 120, 120, 120, 120, 1, 2])
      ⟨[0, 0, 0, 10, 120, 120, 120, 120, 1, 2], 8⟩
      ⟨0, 10, [120, 120, 120, 120], 2⟩
      (by decide) rfl (by decide),
   claim_C2_unknown_policy.2.2.2 0 26
      (Reader.new [0, 0, 0, 26, 109, 111, 111, 118, 0, 0, 0, 18, 120, 120, 120, 120,
        1, 2, 3, 4, 5, 6, 7, 8, 9, 10])
      ⟨[0, 0, 0, 26, 109, 111, 111, 118, 0, 0, 0, 18, 120, 120, 120, 120,
        1, 2, 3, 4, 5, 6, 7, 8, 9, 10], 8⟩
      ⟨[0, 0, 0, 26, 109, 111, 111, 118, 0, 0, 0, 18, 120, 120, 120, 120,
        1, 2, 3, 4, 5, 6, 7, 8, 9, 10], 16⟩
      ⟨0, 26, [109, 111, 111, 118], 18⟩
      ⟨8, 18, [120, 120, 120, 120], 10⟩
      (by decide) rfl (by decide) (by decide) rfl
      (by decide) (by decide) (by decide) (by decide)⟩

end Mp4
